import Mathlib

/-
Verification development for the RAG-Chatbot answer-resolution pipeline.

The Python sources under src/app are shallowly embedded:
  * strings are modelled as Lean strings, processed on their character lists;
  * Python floats are modelled by exact rationals;
  * the hand-written regular expressions of the source are modelled by
    dedicated matcher functions with the leftmost / greedy semantics of
    the re module on the concrete patterns involved;
  * calls to the Ollama HTTP backend are modelled by an oracle
    (a function from call index to outcome) threaded through the code.
-/

namespace RAG

/-- Whitespace characters recognised by the Python regex class backslash-s
and by str.strip and str.split without arguments. -/
def isWs (c : Char) : Bool :=
  c = ' ' || c = '\t' || c = '\n' || c = '\r' || c = Char.ofNat 11 || c = Char.ofNat 12

/-- ASCII decimal digit test (Python regex backslash-d on the inputs involved). -/
def isDigitCh (c : Char) : Bool :=
  '0' ≤ c && c ≤ '9'

/-- Uppercase letter as used by str.isupper and the character classes of the
source patterns: ASCII uppercase plus the German uppercase umlauts. -/
def isUpperCh (c : Char) : Bool :=
  ('A' ≤ c && c ≤ 'Z') || c = 'Ä' || c = 'Ö' || c = 'Ü'

/-- Lowercase letter: ASCII lowercase plus German lowercase umlauts and sharp s. -/
def isLowerCh (c : Char) : Bool :=
  ('a' ≤ c && c ≤ 'z') || c = 'ä' || c = 'ö' || c = 'ü' || c = 'ß'

/-- Letter test modelling str.isalpha on the German/ASCII inputs involved. -/
def isAlphaCh (c : Char) : Bool :=
  isUpperCh c || isLowerCh c

/-- Character-wise model of str.lower for the ASCII and German letters involved. -/
def pyLowerCh (c : Char) : Char :=
  if 'A' ≤ c ∧ c ≤ 'Z' then Char.ofNat (c.toNat + 32)
  else if c = 'Ä' then 'ä'
  else if c = 'Ö' then 'ö'
  else if c = 'Ü' then 'ü'
  else c

/-- Model of str.lower on character lists. -/
def pyLowerL (l : List Char) : List Char :=
  l.map pyLowerCh

/-- Boolean list-prefix test. -/
def isPfx : List Char → List Char → Bool
  | [], _ => true
  | _ :: _, [] => false
  | p :: ps, c :: cs => p = c && isPfx ps cs

/-- Model of the Python substring test (needle in hay). -/
def pyIn (pat : List Char) : List Char → Bool
  | [] => pat.isEmpty
  | c :: rest => isPfx pat (c :: rest) || pyIn pat rest

/-- Case-insensitive prefix test (the effect of re.IGNORECASE on literal words). -/
def isPfxCI (pat : List Char) (s : List Char) : Bool :=
  isPfx pat (pyLowerL (s.take pat.length))

/-- Model of str.strip without arguments. -/
def stripL (l : List Char) : List Char :=
  ((l.dropWhile isWs).reverse.dropWhile isWs).reverse

/-- Model of str.split(sep) for a single-character separator: keeps empty pieces. -/
def splitOnCh (sep : Char) : List Char → List (List Char)
  | [] => [[]]
  | c :: rest =>
    let r := splitOnCh sep rest
    if c = sep then [] :: r
    else
      match r with
      | [] => [[c]]
      | h :: t => (c :: h) :: t

/-- Helper for pySplitWs, carrying the word collected so far (reversed). -/
def pySplitWsAux : List Char → List Char → List (List Char)
  | [], acc => if acc.isEmpty then [] else [acc.reverse]
  | c :: rest, acc =>
    if isWs c then
      if acc.isEmpty then pySplitWsAux rest []
      else acc.reverse :: pySplitWsAux rest []
    else pySplitWsAux rest (c :: acc)

/-- Model of str.split without arguments: split on whitespace runs, no empty pieces. -/
def pySplitWs (l : List Char) : List (List Char) :=
  pySplitWsAux l []

/-- Fuelled worker for pyReplace. -/
def replaceLF (pat rep : List Char) : Nat → List Char → List Char
  | _, [] => []
  | 0, l => l
  | fuel + 1, c :: rest =>
    if pat.isEmpty = false ∧ isPfx pat (c :: rest) then
      rep ++ replaceLF pat rep fuel (List.drop (pat.length - 1) rest)
    else c :: replaceLF pat rep fuel rest

/-- Model of str.replace(pat, rep): replace all occurrences left to right. -/
def pyReplace (s pat rep : List Char) : List Char :=
  replaceLF pat rep s.length s

/-- Fuelled worker for normWs. -/
def normWsF : Nat → List Char → List Char
  | 0, l => l
  | _ + 1, [] => []
  | fuel + 1, c :: rest =>
    if isWs c then ' ' :: normWsF fuel (rest.dropWhile isWs)
    else c :: normWsF fuel rest

/-- Model of re.sub of one-or-more whitespace by a single space. -/
def normWs (l : List Char) : List Char :=
  normWsF l.length l

/-- Fuelled worker for splitSent, carrying the piece collected so far (reversed). -/
def splitSentAux : Nat → List Char → List Char → List (List Char)
  | _, [], acc => [acc.reverse]
  | 0, l, acc => [acc.reverse ++ l]
  | fuel + 1, c :: rest, acc =>
    if c = '.' || c = '!' || c = '?' then
      acc.reverse ::
        splitSentAux fuel (rest.dropWhile (fun d => d = '.' || d = '!' || d = '?')) []
    else splitSentAux fuel rest (c :: acc)

/-- Model of re.split on a run of sentence punctuation [.!?]+ :
pieces between maximal runs, keeping empty leading/trailing pieces. -/
def splitSent (l : List Char) : List (List Char) :=
  splitSentAux l.length l []

/-- String wrapper for convenience in the embeddings below. -/
def chars (s : String) : List Char := s.data

/-- String from characters. -/
def sOf (l : List Char) : String := ⟨l⟩

/-- Model of str.strip on strings. -/
def pyStrip (s : String) : String := sOf (stripL s.data)

/-- Model of str.lower on strings. -/
def pyLower (s : String) : String := sOf (pyLowerL s.data)

/-- Python len of a string (number of unicode characters). -/
def pyLen (s : String) : Nat := s.data.length

/-- Model of the Python substring test on strings. -/
def pyInS (pat s : String) : Bool := pyIn pat.data s.data

/-- Join a list of strings with a separator (str.join). -/
def joinSep (sep : String) : List String → String
  | [] => ""
  | [x] => x
  | x :: y :: rest => x ++ sep ++ joinSep sep (y :: rest)

/-
Rational arithmetic. The toolchain marks Rat.add, Rat.mul, Rat.sub and
Rat.ofScientific irreducible, which blocks kernel evaluation, so the
embedding computes through Rat.divInt and Rat.blt (plain definitions) and
the wrappers below; the bridge lemmas right after each wrapper prove that
they agree with the ordinary rational operations.
-/

/-- Strict comparison of rationals through the executable Rat.blt,
so that it evaluates inside the kernel. -/
def qlt (a b : ℚ) : Bool := Rat.blt a b

/-- Non-strict comparison of rationals through the executable Rat.blt. -/
def qle (a b : ℚ) : Bool := !(Rat.blt b a)

/-- Addition of rationals, kernel-computable. -/
def qadd (a b : ℚ) : ℚ := Rat.divInt (a.num * b.den + b.num * a.den) (a.den * b.den)

/-- Multiplication of rationals, kernel-computable. -/
def qmul (a b : ℚ) : ℚ := Rat.divInt (a.num * b.num) (a.den * b.den)

/-- Subtraction of rationals, kernel-computable. -/
def qsub (a b : ℚ) : ℚ := Rat.divInt (a.num * b.den - b.num * a.den) (a.den * b.den)

/-- Rational constant n / d, kernel-computable. -/
def qc (n d : ℤ) : ℚ := Rat.divInt n d

theorem qlt_iff_lt (a b : ℚ) : qlt a b = true ↔ a < b := Iff.rfl

theorem qle_iff_le (a b : ℚ) : qle a b = true ↔ a ≤ b := by
  rw [qle, Bool.not_eq_true']
  exact Iff.rfl

theorem qadd_eq_add (a b : ℚ) : qadd a b = a + b := by
  rw [qadd, Rat.add_def, Rat.normalize_eq_mkRat, ← Rat.divInt_ofNat, Int.natCast_mul]

theorem qmul_eq_mul (a b : ℚ) : qmul a b = a * b := by
  rw [qmul, Rat.mul_def, Rat.normalize_eq_mkRat, ← Rat.divInt_ofNat, Int.natCast_mul]

theorem qsub_eq_sub (a b : ℚ) : qsub a b = a - b := by
  rw [qsub, Rat.sub_def, Rat.normalize_eq_mkRat, ← Rat.divInt_ofNat, Int.natCast_mul]

/-- Maximum of two rationals as computed by the Python max builtin. -/
def qmax (a b : ℚ) : ℚ := if qlt b a then a else b

/-- Minimum of two rationals as computed by the Python min builtin. -/
def qmin (a b : ℚ) : ℚ := if qlt a b then a else b

theorem qmax_eq_max (a b : ℚ) : qmax a b = max a b := by
  rw [qmax]
  by_cases h : qlt b a
  · simp only [h, if_true]
    exact (max_eq_left ((qlt_iff_lt b a).mp h).le).symm
  · simp only [h, if_false]
    have : ¬ b < a := fun hba => h ((qlt_iff_lt b a).mpr hba)
    exact (max_eq_right (not_lt.mp this)).symm

theorem qmin_eq_min (a b : ℚ) : qmin a b = min a b := by
  rw [qmin]
  by_cases h : qlt a b
  · simp only [h, if_true]
    exact (min_eq_left ((qlt_iff_lt a b).mp h).le).symm
  · simp only [h, if_false]
    have : ¬ a < b := fun hba => h ((qlt_iff_lt a b).mpr hba)
    exact (min_eq_right (not_lt.mp this)).symm

/-- Floor of a rational as an integer, via integer floor division. -/
def ratFloor (q : ℚ) : ℤ := Int.fdiv q.num q.den

/-- Python round-half-to-even of a rational (semantics of the builtin round
on the exact values involved). -/
def pyRoundHalfEven (q : ℚ) : ℤ :=
  let f : ℤ := ratFloor q
  let r : ℚ := qsub q (qc f 1)
  if qlt r (qc 1 2) then f
  else if qlt (qc 1 2) r then f + 1
  else if f % 2 = 0 then f else f + 1

/-- Python round(x, 3). -/
def round3 (q : ℚ) : ℚ := qc (pyRoundHalfEven (qmul q (qc 1000 1))) 1000

/-- Section of a tenant corpus: the dict with id, title and text built by the
document loader and stored in the index (spec section 3, Section). -/
structure Chunk where
  id : String
  title : String
  text : String
deriving DecidableEq, Repr

/-- Hit of the lexical index (TopicHit in src/app/topic_index.py). -/
structure TopicHit where
  doc : Chunk
  score : ℚ
deriving DecidableEq, Repr

/-- Hit of the semantic index (VectorHit in src/app/vector_index.py). -/
structure VectorHit where
  doc : Chunk
  score : ℚ
deriving DecidableEq, Repr

namespace TopicIndex

/-- Shallow embedding of TopicIndex.rsq_from_hits (src/app/topic_index.py, lines 36-46). -/
def rsq_from_hits (hits : List TopicHit) : ℚ :=
  match hits with
  | [] => 0
  | h :: rest =>
    let best := h.score
    let second : ℚ := match rest with | [] => 0 | h2 :: _ => h2.score
    let margin := qmax 0 (qsub best second)
    let rsq := qadd (qmul (qc 75 100) best) (qmul (qc 25 100) margin)
    qmax 0 (qmin 1 (round3 rsq))

end TopicIndex

namespace VectorIndex

/-- Shallow embedding of VectorIndex.rsq_from_hits (src/app/vector_index.py, lines 254-264). -/
def rsq_from_hits (hits : List VectorHit) : ℚ :=
  match hits with
  | [] => 0
  | h :: rest =>
    let best := h.score
    let second : ℚ := match rest with | [] => 0 | h2 :: _ => h2.score
    let margin := qmax 0 (qsub best second)
    let rsq := qadd (qmul (qc 75 100) best) (qmul (qc 25 100) margin)
    qmax 0 (qmin 1 (round3 rsq))

end VectorIndex

/-- Modelled from the claim wording: clamp(round(0.75 best + 0.25 max(0, best - second), 3), 0, 1)
over the list of hit scores, with second = 0 when fewer than two hits exist and
0 for the empty hit list. -/
def rsqSpec : List ℚ → ℚ
  | [] => 0
  | best :: rest =>
    let second := rest.headD 0
    qmax 0 (qmin 1 (round3 (qadd (qmul (qc 75 100) best) (qmul (qc 25 100) (qmax 0 (qsub best second))))))

/-- Claim C1: both confidence estimators compute the clamped rounded
0.75 best + 0.25 margin formula of the spec; scores [0.8, 0.5] give 0.675
and the empty hit list gives 0. -/
theorem claim_C1 :
    (∀ hits : List TopicHit,
      TopicIndex.rsq_from_hits hits = rsqSpec (hits.map TopicHit.score)) ∧
    (∀ hits : List VectorHit,
      VectorIndex.rsq_from_hits hits = rsqSpec (hits.map VectorHit.score)) ∧
    TopicIndex.rsq_from_hits [⟨⟨"a", "A", "ta"⟩, qc 8 10⟩, ⟨⟨"b", "B", "tb"⟩, qc 5 10⟩] = qc 675 1000 ∧
    VectorIndex.rsq_from_hits [⟨⟨"a", "A", "ta"⟩, qc 8 10⟩, ⟨⟨"b", "B", "tb"⟩, qc 5 10⟩] = qc 675 1000 ∧
    TopicIndex.rsq_from_hits [] = 0 ∧
    VectorIndex.rsq_from_hits [] = 0 := by
  refine ⟨?_, ?_, by decide, by decide, by decide, by decide⟩
  · intro hits
    match hits with
    | [] => rfl
    | [h] => rfl
    | h :: h2 :: rest => rfl
  · intro hits
    match hits with
    | [] => rfl
    | [h] => rfl
    | h :: h2 :: rest => rfl

namespace LLMRouter

/-- Reasoning keywords of LLMRouter.calculate_complexity (src/app/llm_router.py, lines 116-117). -/
def reasoning_keywords : List String :=
  ["warum", "weshalb", "wieso", "wie funktioniert", "erkläre", "analysiere",
   "vergleiche", "unterschied", "zusammenhang", "begründ", "schlussfolger"]

/-- Shallow embedding of LLMRouter.calculate_complexity (src/app/llm_router.py, lines 93-145). -/
def calculate_complexity (query : String) (context_chunks : List Chunk) (rsq : ℚ) : ℚ :=
  let query_lower := pyLower query
  let query_length := (pySplitWs query.data).length
  let c1 : ℚ := 0
  let c2 :=
    if query_length > 15 then qadd c1 (qc 2 10)
    else if query_length > 8 then qadd c1 (qc 1 10) else c1
  let c3 :=
    if reasoning_keywords.any (fun kw => pyInS kw query_lower) then qadd c2 (qc 3 10) else c2
  let num_chunks := context_chunks.length
  let c4 :=
    if num_chunks > 3 then qadd c3 (qc 2 10)
    else if num_chunks > 1 then qadd c3 (qc 1 10) else c3
  let total_context_length := (context_chunks.map (fun ch => pyLen ch.text)).sum
  let c5 :=
    if total_context_length > 2000 then qadd c4 (qc 2 10)
    else if total_context_length > 1000 then qadd c4 (qc 1 10) else c4
  let c6 :=
    if qlt rsq (qc 3 10) then qadd c5 (qc 2 10)
    else if qlt rsq (qc 5 10) then qadd c5 (qc 1 10) else c5
  let c7 :=
    if pyInS " und " query_lower || pyInS " sowie " query_lower || pyInS " oder " query_lower then
      qadd c6 (qc 1 10)
    else c6
  qmin c7 1

/-- Tier-selection branch of LLMRouter.route (src/app/llm_router.py, lines 159-170). -/
def route_model_type (query : String) (context_chunks : List Chunk) (rsq : ℚ) : String :=
  let complexity := calculate_complexity query context_chunks rsq
  if qlt complexity (qc 3 10) then "fast"
  else if qlt complexity (qc 7 10) then "standard"
  else "reasoning"

end LLMRouter

/-- Modelled from the claim wording: the complexity score is the clamped-to-1 sum
of the six signal weights (query length, reasoning keywords, chunk count, context
length, low confidence, compound markers). -/
def complexitySpec (query : String) (context_chunks : List Chunk) (rsq : ℚ) : ℚ :=
  let ql := pyLower query
  let n := (pySplitWs query.data).length
  let ctxLen := (context_chunks.map (fun ch => pyLen ch.text)).sum
  let wLen : ℚ := if n > 15 then qc 2 10 else if n > 8 then qc 1 10 else 0
  let wReason : ℚ :=
    if LLMRouter.reasoning_keywords.any (fun kw => pyInS kw ql) then qc 3 10 else 0
  let wChunks : ℚ :=
    if context_chunks.length > 3 then qc 2 10
    else if context_chunks.length > 1 then qc 1 10 else 0
  let wCtx : ℚ := if ctxLen > 2000 then qc 2 10 else if ctxLen > 1000 then qc 1 10 else 0
  let wRsq : ℚ := if qlt rsq (qc 3 10) then qc 2 10 else if qlt rsq (qc 5 10) then qc 1 10 else 0
  let wAnd : ℚ :=
    if pyInS " und " ql || pyInS " sowie " ql || pyInS " oder " ql then qc 1 10 else 0
  qmin (qadd (qadd (qadd (qadd (qadd wLen wReason) wChunks) wCtx) wRsq) wAnd) 1

/-- Modelled from the claim wording: the closed-open interval tier map. -/
def tierSpec (c : ℚ) : String :=
  if qlt c (qc 3 10) then "fast"
  else if qlt c (qc 7 10) then "standard"
  else "reasoning"

/-- Concrete router input reaching complexity exactly 0.3:
nine words (+0.1) and four small context chunks (+0.2). -/
def routerQuery03 : String := "a b c d e f g h i"

/-- Four context chunks of one character each. -/
def routerChunks4 : List Chunk :=
  [⟨"1", "T", "x"⟩, ⟨"2", "T", "x"⟩, ⟨"3", "T", "x"⟩, ⟨"4", "T", "x"⟩]

/-- Concrete router input reaching complexity exactly 0.7: sixteen words (+0.2)
with the reasoning keyword warum (+0.3) and four small chunks (+0.2). -/
def routerQuery07 : String := "warum a b c d e f g h i j k l m n o"

theorem ite_qadd_two (c x y : ℚ) (A B : Prop) [Decidable A] [Decidable B] :
    (if A then qadd c x else if B then qadd c y else c)
      = qadd c (if A then x else if B then y else 0) := by
  simp only [qadd_eq_add]
  split_ifs <;> ring

theorem ite_qadd_one (c x : ℚ) (A : Prop) [Decidable A] :
    (if A then qadd c x else c) = qadd c (if A then x else 0) := by
  simp only [qadd_eq_add]
  split_ifs <;> ring

theorem ite_qadd_both (c x y : ℚ) (A : Prop) [Decidable A] :
    (if A then qadd c x else qadd c y) = qadd c (if A then x else y) := by
  split_ifs <;> rfl

/-- Claim C4: the router complexity is the clamped sum of exactly the listed
signal weights; the tier map uses closed-open intervals, with 0.3 resolving to
standard and 0.7 to reasoning. -/
theorem claim_C4 :
    (∀ (q : String) (chunks : List Chunk) (rsq : ℚ),
      LLMRouter.calculate_complexity q chunks rsq = complexitySpec q chunks rsq) ∧
    (∀ (q : String) (chunks : List Chunk) (rsq : ℚ),
      LLMRouter.route_model_type q chunks rsq =
        tierSpec (LLMRouter.calculate_complexity q chunks rsq)) ∧
    LLMRouter.calculate_complexity routerQuery03 routerChunks4 (qc 3 5) = qc 3 10 ∧
    LLMRouter.route_model_type routerQuery03 routerChunks4 (qc 3 5) = "standard" ∧
    LLMRouter.calculate_complexity routerQuery07 routerChunks4 (qc 3 5) = qc 7 10 ∧
    LLMRouter.route_model_type routerQuery07 routerChunks4 (qc 3 5) = "reasoning" ∧
    LLMRouter.route_model_type "kurz" [] (qc 9 10) = "fast" := by
  refine ⟨?_, ?_, by decide, by decide, by decide, by decide, by decide⟩
  · intro q chunks rsq
    simp only [LLMRouter.calculate_complexity, complexitySpec, ite_qadd_two, ite_qadd_one,
      ite_qadd_both]
    simp only [qadd_eq_add, zero_add]
  · intro q chunks rsq
    simp only [LLMRouter.route_model_type, tierSpec]

/-- Leftmost regex search: try the position matcher at every suffix, the
earliest match wins (the semantics of re.search over the anchored matchers
defined below). -/
def scanFirst {α : Type} (f : List Char → Option α) : List Char → Option α
  | [] => f []
  | c :: rest =>
    match f (c :: rest) with
    | some a => some a
    | none => scanFirst f rest

/-- First-or-result of two options, evaluating like the early returns of the
Python matcher branches. -/
def oElse {α : Type} (a b : Option α) : Option α :=
  match a with
  | some x => some x
  | none => b

/-- Drop an exact literal prefix, returning the remainder. -/
def dropPfx : List Char → List Char → Option (List Char)
  | [], s => some s
  | _ :: _, [] => none
  | p :: ps, c :: cs => if c = p then dropPfx ps cs else none

/-- Drop a case-insensitive literal prefix (the pattern literal is given in
lowercase), returning the remainder. -/
def dropCIPfx : List Char → List Char → Option (List Char)
  | [], s => some s
  | _ :: _, [] => none
  | p :: ps, c :: cs => if pyLowerCh c = p then dropCIPfx ps cs else none

/-- First alternative of a literal alternation whose prefix matches; the
alternatives used in the source are pairwise incompatible at a single
position, so order does not matter beyond the first hit. -/
def dropAnyPfx (pats : List (List Char)) (s : List Char) : Option (List Char) :=
  match pats with
  | [] => none
  | p :: ps =>
    match dropPfx p s with
    | some r => some r
    | none => dropAnyPfx ps s

/-- Case-insensitive version of dropAnyPfx. -/
def dropAnyCIPfx (pats : List (List Char)) (s : List Char) : Option (List Char) :=
  match pats with
  | [] => none
  | p :: ps =>
    match dropCIPfx p s with
    | some r => some r
    | none => dropAnyCIPfx ps s

/-- Join character-list pieces with a separator. -/
def joinWith (sep : List Char) : List (List Char) → List Char
  | [] => []
  | [x] => x
  | x :: y :: rest => x ++ sep ++ joinWith sep (y :: rest)

/-- Characters of the amount class [digits dot comma] in the Betrag patterns. -/
def isAmountCh (c : Char) : Bool :=
  isDigitCh c || c = '.' || c = ','

/-- Characters of the class [colon or whitespace] separating a label from its value. -/
def isColonWs (c : Char) : Bool :=
  c = ':' || isWs c

/-- Matcher at one position for label[:\s]*([\d.,]+\s*€) with IGNORECASE
(label given lowercase); the adjacent character classes are disjoint, so the
greedy match is deterministic. Returns group 1 (amount, spaces and euro sign). -/
def betragAmountAt (label : List Char) (s : List Char) : Option (List Char) :=
  match dropCIPfx label s with
  | none => none
  | some r1 =>
    let r2 := r1.dropWhile isColonWs
    let digits := r2.takeWhile isAmountCh
    if digits.isEmpty then none
    else
      let r3 := r2.dropWhile isAmountCh
      let sp := r3.takeWhile isWs
      match r3.dropWhile isWs with
      | '€' :: _ => some (digits ++ sp ++ ['€'])
      | _ => none

/-- Matcher at one position for label[:\s]*([\d.,]+)\s*€ (group without the
trailing spaces and euro sign), used by the Skonto computation. -/
def betragBareAt (label : List Char) (s : List Char) : Option (List Char) :=
  match dropCIPfx label s with
  | none => none
  | some r1 =>
    let r2 := r1.dropWhile isColonWs
    let digits := r2.takeWhile isAmountCh
    if digits.isEmpty then none
    else
      match (r2.dropWhile isAmountCh).dropWhile isWs with
      | '€' :: _ => some digits
      | _ => none

/-- Matcher at one position for (\d+)\s*%\s*Skonto with IGNORECASE; returns
the digit group. -/
def skontoAt (s : List Char) : Option (List Char) :=
  let d := s.takeWhile isDigitCh
  if d.isEmpty then none
  else
    match (s.dropWhile isDigitCh).dropWhile isWs with
    | '%' :: r2 =>
      match dropCIPfx "skonto".data (r2.dropWhile isWs) with
      | some _ => some d
      | none => none
    | _ => none

/-- Match one or two digits followed by a literal dot (the d{1,2} dot step of
the date pattern), greedy two digits first with the backtracking of the
re engine. Returns the digits and the remainder after the dot. -/
def dayDot (s : List Char) : Option (List Char × List Char) :=
  match s with
  | a :: b :: c :: rest =>
    if isDigitCh a ∧ isDigitCh b ∧ c = '.' then some ([a, b], rest)
    else if isDigitCh a ∧ b = '.' then some ([a], c :: rest)
    else none
  | [a, b] => if isDigitCh a ∧ b = '.' then some ([a], []) else none
  | _ => none

/-- Match exactly four digits. -/
def fourDigits (s : List Char) : Option (List Char) :=
  match s with
  | a :: b :: c :: d :: _ =>
    if isDigitCh a ∧ isDigitCh b ∧ isDigitCh c ∧ isDigitCh d then some [a, b, c, d] else none
  | _ => none

/-- Matcher at one position for the date pattern d{1,2}.d{1,2}.d{4}. -/
def dateAt (s : List Char) : Option (List Char) :=
  match dayDot s with
  | none => none
  | some (p1, r1) =>
    match dayDot r1 with
    | none => none
    | some (p2, r2) =>
      match fourDigits r2 with
      | none => none
      | some p3 => some (p1 ++ '.' :: p2 ++ '.' :: p3)

/-- Matcher at one position for (?:bis zum|faellig|bis)\s+(date) with
IGNORECASE, trying the alternatives in source order. -/
def faelligAt (s : List Char) : Option (List Char) :=
  let tryAlt := fun (alt : List Char) =>
    match dropCIPfx alt s with
    | none => none
    | some r1 =>
      if (r1.takeWhile isWs).isEmpty then none
      else dateAt (r1.dropWhile isWs)
  oElse (tryAlt "bis zum".data) (oElse (tryAlt "fällig".data) (tryAlt "bis".data))

/-- Matcher at one position for Rechnungsdatum[:\s]*(date) with IGNORECASE. -/
def rechnungsdatumAt (s : List Char) : Option (List Char) :=
  match dropCIPfx "rechnungsdatum".data s with
  | none => none
  | some r1 => dateAt (r1.dropWhile isColonWs)

/-- Identifier class [A-Z0-9 hyphen] under IGNORECASE (letters of both cases). -/
def isInvIdCh (c : Char) : Bool :=
  ('A' ≤ c && c ≤ 'Z') || ('a' ≤ c && c ≤ 'z') || isDigitCh c || c = '-'

/-- The \s*[:\-]?\s*([A-Z0-9\-]+) tail of the invoice-number pattern, with the
greedy optional separator backtracking of the re engine. -/
def invGroupFrom (r : List Char) : Option (List Char) :=
  let r1 := r.dropWhile isWs
  let withSep : Option (List Char) :=
    match r1 with
    | c :: rest =>
      if c = ':' || c = '-' then
        let g := (rest.dropWhile isWs).takeWhile isInvIdCh
        if g.isEmpty then none else some g
      else none
    | [] => none
  match withSep with
  | some g => some g
  | none =>
    let g := r1.takeWhile isInvIdCh
    if g.isEmpty then none else some g

/-- Matcher at one position for (?:INV|Rechnung\s+Nr\.?)\s*[:\-]?\s*([A-Z0-9\-]+)
with IGNORECASE. -/
def invAt (s : List Char) : Option (List Char) :=
  let viaInv :=
    match dropCIPfx "inv".data s with
    | some r => invGroupFrom r
    | none => none
  match viaInv with
  | some g => some g
  | none =>
    match dropCIPfx "rechnung".data s with
    | none => none
    | some r1 =>
      if (r1.takeWhile isWs).isEmpty then none
      else
        match dropCIPfx "nr".data (r1.dropWhile isWs) with
        | none => none
        | some r2 =>
          match r2 with
          | '.' :: rest =>
            match invGroupFrom rest with
            | some g => some g
            | none => invGroupFrom r2
          | _ => invGroupFrom r2

/-- Matcher at one position for ([A-Z][a-z]+\s+[A-Z][a-z]+), ASCII classes,
case sensitive. -/
def firmaRegexAt (s : List Char) : Option (List Char) :=
  match s with
  | c :: rest =>
    if 'A' ≤ c ∧ c ≤ 'Z' then
      let isLo := fun d => 'a' ≤ d && d ≤ 'z'
      let w1 := rest.takeWhile isLo
      if w1.isEmpty then none
      else
        let r1 := rest.dropWhile isLo
        let sp := r1.takeWhile isWs
        if sp.isEmpty then none
        else
          match r1.dropWhile isWs with
          | c2 :: rest2 =>
            if 'A' ≤ c2 ∧ c2 ≤ 'Z' then
              let w2 := rest2.takeWhile isLo
              if w2.isEmpty then none
              else some (c :: w1 ++ sp ++ c2 :: w2)
            else none
          | [] => none
    else none
  | [] => none

/-- Matcher at one position for kapitel\s+(\d+\.\d+) on the lowercased query. -/
def kapitelAt (s : List Char) : Option (List Char) :=
  match dropPfx "kapitel".data s with
  | none => none
  | some r1 =>
    if (r1.takeWhile isWs).isEmpty then none
    else
      let r2 := r1.dropWhile isWs
      let d1 := r2.takeWhile isDigitCh
      if d1.isEmpty then none
      else
        match r2.dropWhile isDigitCh with
        | '.' :: r3 =>
          let d2 := r3.takeWhile isDigitCh
          if d2.isEmpty then none else some (d1 ++ '.' :: d2)
        | _ => none

/-- Value of a list of decimal digit characters (most significant first). -/
def digitsToNat (l : List Char) : Nat :=
  l.foldl (fun acc c => acc * 10 + (c.toNat - 48)) 0

/-- Decimal digits of a natural number, most significant first, kernel-computable. -/
def natDigitsF : Nat → Nat → List Char
  | 0, _ => []
  | _ + 1, 0 => []
  | fuel + 1, n => natDigitsF fuel (n / 10) ++ [Char.ofNat (48 + n % 10)]

/-- Decimal representation of a natural number as Python str renders it. -/
def natDigits (n : Nat) : List Char :=
  if n = 0 then ['0'] else natDigitsF (n + 1) n

/-- Model of the float builtin on the strings arising in the Skonto branch:
digits with at most one dot and at least one digit; anything else raises,
which the source swallows with a bare except. -/
def parsePyFloat (l : List Char) : Option ℚ :=
  match splitOnCh '.' l with
  | [ip] =>
    if ip.isEmpty = false ∧ ip.all isDigitCh then some (qc (digitsToNat ip) 1) else none
  | [ip, fp] =>
    if (ip.isEmpty = false ∨ fp.isEmpty = false) ∧ ip.all isDigitCh ∧ fp.all isDigitCh then
      some (qadd (qc (digitsToNat ip) 1) (qc (digitsToNat fp) ((10 : ℤ) ^ fp.length)))
    else none
  | _ => none

/-- Worker inserting a thousands separator every three digits, walking the
reversed digit list. -/
def groupThreeGo : List Char → Nat → List Char
  | [], _ => []
  | c :: rest, k =>
    if k = 3 then ',' :: c :: groupThreeGo rest 1
    else c :: groupThreeGo rest (k + 1)

/-- Thousands grouping of a digit list as the Python comma format spec does. -/
def insertThousands (l : List Char) : List Char :=
  (groupThreeGo l.reverse 0).reverse

/-- Model of the Python format spec comma .2f on the nonnegative values arising
here: round half to even at two decimals, group the integer part by thousands. -/
def fmtComma2f (q : ℚ) : List Char :=
  let cents : Nat := (pyRoundHalfEven (qmul q (qc 100 1))).toNat
  let ip := cents / 100
  let fp := cents % 100
  insertThousands (natDigits ip) ++ '.' :: Char.ofNat (48 + fp / 10) :: [Char.ofNat (48 + fp % 10)]

/-- Truthiness of an optional string, as Python if-tests treat matcher results. -/
def pyTruthy : Option String → Bool
  | some s => !s.data.isEmpty
  | none => false

namespace RAGEngine

/-- Blocked words of the company-name line heuristic
(src/app/rag_engine.py, line 122). -/
def firmaBlockedWords : List (List Char) :=
  ["ihr", "unternehmen", "rechnung", "betreff", "seite", "damen", "herren"].map String.data

/-- Company-name line test (src/app/rag_engine.py, lines 118-123): two to four
words, every word starting with a letter starts uppercase, none blocked. -/
def firmaLineOk (ls : List Char) : Bool :=
  let words := pySplitWs ls
  2 ≤ words.length && words.length ≤ 4 &&
    words.all (fun w =>
      match w with
      | c :: _ => if isAlphaCh c then isUpperCh c else true
      | [] => true) &&
    !(words.any (fun w => firmaBlockedWords.contains (pyLowerL w)))

/-- Collector of the Fazit/Ausblick branch (src/app/rag_engine.py,
lines 138-148): once a keyword line is seen, collect stripped lines longer
than 10, stopping at five. -/
def fazitCollect : List (List Char) → Bool → List (List Char) → List (List Char)
  | [], _, acc => acc
  | line :: rest, found, acc =>
    let ll := pyLowerL line
    let found2 := found ||
      ((pyIn "fazit".data ll || pyIn "ausblick".data ll) && (stripL line).length > 5)
    if found2 && (stripL line).length > 10 then
      let acc2 := acc ++ [stripL line]
      if 5 ≤ acc2.length then acc2 else fazitCollect rest found2 acc2
    else fazitCollect rest found2 acc

/-- Scanner of the chapter branch (src/app/rag_engine.py, lines 157-166): at
the first line containing the chapter number with stripped length over 5, take
it and the substantive ones of the next five lines; only a group of at least
two lines is returned, otherwise the scan continues. -/
def kapitelScan (num : List Char) : List (List Char) → Option (List Char)
  | [] => none
  | line :: rest =>
    if pyIn num line && (stripL line).length > 5 then
      let following := ((rest.take 5).filter (fun l2 => (stripL l2).length > 10)).map stripL
      let relevant := stripL line :: following
      if relevant.length > 1 then some (joinWith ['\n'] (relevant.take 4))
      else kapitelScan num rest
    else kapitelScan num rest

/-- Gesamtbetrag branch (src/app/rag_engine.py, lines 64-70). -/
def esaGesamt (ql t : List Char) : Option (List Char) :=
  if pyIn "gesamtbetrag".data ql || (pyIn "wie hoch".data ql && pyIn "betrag".data ql) then
    match scanFirst (betragAmountAt "gesamtbetrag".data) (normWs t) with
    | some g => some ("Der Gesamtbetrag beträgt ".data ++ stripL g)
    | none => none
  else none

/-- Nettobetrag branch (src/app/rag_engine.py, lines 72-77). -/
def esaNetto (ql t : List Char) : Option (List Char) :=
  if pyIn "nettobetrag".data ql then
    match scanFirst (betragAmountAt "nettobetrag".data) (normWs t) with
    | some g => some ("Der Nettobetrag beträgt ".data ++ stripL g)
    | none => none
  else none

/-- Skonto branch (src/app/rag_engine.py, lines 79-96). -/
def esaSkonto (ql t : List Char) : Option (List Char) :=
  if pyIn "skonto".data ql || pyIn "spare".data ql ||
      (pyIn "wie viel".data ql && pyIn "spare".data ql) then
    let nt := normWs t
    match scanFirst skontoAt nt with
    | none => none
    | some d =>
      let p := digitsToNat d
      let viaBetrag : Option (List Char) :=
        match scanFirst (betragBareAt "gesamtbetrag".data) nt with
        | some betragStr =>
          let cleaned := pyReplace (pyReplace betragStr ".".data "".data) ",".data ".".data
          match parsePyFloat cleaned with
          | some betrag =>
            let skonto_betrag := qmul betrag (qc p 100)
            some ("Bei ".data ++ natDigits p ++ "% Skonto sparen Sie ".data ++
              fmtComma2f skonto_betrag ++ " € (".data ++ natDigits p ++ "% von ".data ++
              fmtComma2f betrag ++ " €)".data)
          | none => none
        | none => none
      match viaBetrag with
      | some r => some r
      | none => some ("Es gibt ".data ++ natDigits p ++ "% Skonto".data)
  else none

/-- Datum branch (src/app/rag_engine.py, lines 98-112). -/
def esaDatum (ql t : List Char) : Option (List Char) :=
  if pyIn "datum".data ql || pyIn "wann".data ql then
    let viaFaellig : Option (List Char) :=
      if pyIn "fällig".data ql || pyIn "bis".data ql then
        match scanFirst faelligAt t with
        | some d => some ("Die Rechnung ist bis zum ".data ++ d ++ " fällig".data)
        | none => none
      else none
    match viaFaellig with
    | some r => some r
    | none =>
      match scanFirst rechnungsdatumAt t with
      | some d => some ("Das Rechnungsdatum ist ".data ++ d)
      | none =>
        match scanFirst dateAt t with
        | some d => some ("Das Datum ist ".data ++ d)
        | none => none
  else none

/-- Firma branch (src/app/rag_engine.py, lines 114-127). -/
def esaFirma (ql t : List Char) : Option (List Char) :=
  if pyIn "firma".data ql || pyIn "unternehmen".data ql ||
      (pyIn "wie heißt".data ql && pyIn "firma".data ql) then
    let viaLines :=
      match (((splitOnCh '\n' t).take 15).map stripL).find? firmaLineOk with
      | some line => some ("Die Firma heißt ".data ++ line)
      | none => none
    match viaLines with
    | some r => some r
    | none =>
      match scanFirst firmaRegexAt t with
      | some g =>
        if pyIn "Ihr".data g || pyIn "Unternehmen".data g then none
        else some ("Die Firma heißt ".data ++ g)
      | none => none
  else none

/-- Rechnungsnummer branch (src/app/rag_engine.py, lines 129-133). -/
def esaRechnung (ql t : List Char) : Option (List Char) :=
  if pyIn "rechnungsnummer".data ql || (pyIn "rechnung".data ql && pyIn "nummer".data ql) ||
      pyIn "inv".data ql then
    match scanFirst invAt t with
    | some g => some ("Die Rechnungsnummer ist ".data ++ g)
    | none => none
  else none

/-- Fazit/Ausblick branch (src/app/rag_engine.py, lines 135-150). -/
def esaFazit (ql t : List Char) : Option (List Char) :=
  if pyIn "fazit".data ql || pyIn "ausblick".data ql then
    let rl := fazitCollect (splitOnCh '\n' t) false []
    if rl.isEmpty then none else some (joinWith ['\n'] (rl.take 3))
  else none

/-- Chapter branch (src/app/rag_engine.py, lines 152-166). -/
def esaKapitel (ql t : List Char) : Option (List Char) :=
  match scanFirst kapitelAt ql with
  | none => none
  | some num => kapitelScan num (splitOnCh '\n' t)

/-- Shallow embedding of RAGEngine._extract_simple_answer
(src/app/rag_engine.py, lines 57-168): the ordered fact matchers with
fall-through between branches. -/
def extract_simple_answer (query chunk_text : String) : Option String :=
  let ql := pyLowerL query.data
  let t := chunk_text.data
  (oElse (esaGesamt ql t) (oElse (esaNetto ql t) (oElse (esaSkonto ql t)
    (oElse (esaDatum ql t) (oElse (esaFirma ql t) (oElse (esaRechnung ql t)
      (oElse (esaFazit ql t) (esaKapitel ql t)))))))).map sOf

/-- Question starters of the two list patterns (src/app/rag_engine.py,
lines 177-180); pairwise incompatible literals at a single position. -/
def listStarters : List (List Char) :=
  ["welche", "was sind", "nenne", "zähle"].map String.data

/-- Number words of the first list pattern. -/
def numberWords : List (List Char) :=
  ["drei", "zwei", "vier", "fünf", "sechs", "sieben", "acht", "neun", "zehn"].map String.data

/-- Word class [a-zäöü] of the list pattern groups. -/
def isListWordCh (c : Char) : Bool :=
  ('a' ≤ c && c ≤ 'z') || c = 'ä' || c = 'ö' || c = 'ü'

/-- Matcher at one position for the first list pattern
starter\s+(?:die\s+)?number\s+([a-zäöü]+), with the greedy optional die
backtracking. -/
def listP1At (s : List Char) : Option (List Char) :=
  match dropAnyPfx listStarters s with
  | none => none
  | some r1 =>
    if (r1.takeWhile isWs).isEmpty then none
    else
      let r2 := r1.dropWhile isWs
      let tryNum := fun (r : List Char) =>
        match dropAnyPfx numberWords r with
        | none => none
        | some r4 =>
          if (r4.takeWhile isWs).isEmpty then none
          else
            let g := (r4.dropWhile isWs).takeWhile isListWordCh
            if g.isEmpty then none else some g
      let viaDie :=
        match dropPfx "die".data r2 with
        | some r3 =>
          if (r3.takeWhile isWs).isEmpty then none
          else tryNum (r3.dropWhile isWs)
        | none => none
      match viaDie with
      | some g => some g
      | none => tryNum r2

/-- Matcher at one position for the second list pattern
starter\s+([a-zäöü]+)\s+(?:gibt es|sind|existieren). -/
def listP2At (s : List Char) : Option (List Char) :=
  match dropAnyPfx listStarters s with
  | none => none
  | some r1 =>
    if (r1.takeWhile isWs).isEmpty then none
    else
      let r2 := r1.dropWhile isWs
      let g := r2.takeWhile isListWordCh
      if g.isEmpty then none
      else
        let r3 := r2.dropWhile isListWordCh
        if (r3.takeWhile isWs).isEmpty then none
        else
          match dropAnyPfx (["gibt es", "sind", "existieren"].map String.data)
              (r3.dropWhile isWs) with
          | some _ => some g
          | none => none

/-- Matcher at one position for the parenthesis pattern
backslash-open ([^)]*(?:-Modul|-Pattern)[^)]*) backslash-close with IGNORECASE:
an opening paren whose content up to the first closing paren mentions a module
or pattern; the group is that whole content. -/
def parenModulAt (s : List Char) : Option (List Char) :=
  match s with
  | '(' :: rest =>
    let content := rest.takeWhile (fun c => c ≠ ')')
    match rest.dropWhile (fun c => c ≠ ')') with
    | ')' :: _ =>
      if pyIn "-modul".data (pyLowerL content) || pyIn "-pattern".data (pyLowerL content) then
        some content
      else none
    | _ => none
  | _ => none

/-- Fuelled worker of the re.split on \s+und\s+ used for the parenthesis
content: leftmost non-overlapping matches of whitespace-und-whitespace. -/
def splitUndF : Nat → List Char → List Char → List (List Char)
  | 0, s, acc => [acc.reverse ++ s]
  | _ + 1, [], acc => [acc.reverse]
  | fuel + 1, c :: rest, acc =>
    let matched : Option (List Char) :=
      if isWs c then
        match dropPfx "und".data ((c :: rest).dropWhile isWs) with
        | some r2 =>
          if (r2.takeWhile isWs).isEmpty then none else some (r2.dropWhile isWs)
        | none => none
      else none
    match matched with
    | some r3 => acc.reverse :: splitUndF fuel r3 []
    | none => splitUndF fuel rest (c :: acc)

/-- Model of re.split(r'\s+und\s+', s). -/
def splitUnd (l : List Char) : List (List Char) :=
  splitUndF l.length l []


/-- Items from the parenthesis content (src/app/rag_engine.py, lines 195-209):
split at und, split each piece at commas, strip, keep module/pattern mentions,
then drop leftovers of three characters or fewer. -/
def listFromParens (content : List Char) : List (List Char) :=
  let modules := splitUnd content
  let all_modules := modules.flatMap (fun m =>
    if pyIn ",".data m then (splitOnCh ',' m).map stripL else [stripL m])
  let found := (all_modules.filter (fun m =>
    (stripL m).isEmpty = false &&
      (pyIn "modul".data (pyLowerL m) || pyIn "pattern".data (pyLowerL m)))).map stripL
  if found.isEmpty then found
  else found.filter (fun item =>
    !(pyLowerL item = "und".data || pyLowerL item = []) && item.length > 3)

/-- Letter class [a-zA-ZäöüÄÖÜ] of the module token pattern. -/
def isGermanLetter (c : Char) : Bool :=
  ('a' ≤ c && c ≤ 'z') || ('A' ≤ c && c ≤ 'Z') ||
    c = 'ä' || c = 'ö' || c = 'ü' || c = 'Ä' || c = 'Ö' || c = 'Ü'

/-- Matcher at one position for ([A-Z][a-zA-ZäöüÄÖÜ]+(?:-Modul|-Pattern)),
case sensitive; returns the match and the remainder for findall continuation. -/
def modulTokenAt (s : List Char) : Option (List Char × List Char) :=
  match s with
  | c :: rest =>
    if 'A' ≤ c ∧ c ≤ 'Z' then
      let letters := rest.takeWhile isGermanLetter
      if letters.isEmpty then none
      else
        let r1 := rest.dropWhile isGermanLetter
        match dropPfx "-Modul".data r1 with
        | some r2 => some (c :: letters ++ "-Modul".data, r2)
        | none =>
          match dropPfx "-Pattern".data r1 with
          | some r2 => some (c :: letters ++ "-Pattern".data, r2)
          | none => none
    else none
  | [] => none

/-- Fuelled re.findall for the module token pattern: non-overlapping matches,
scanning resumes after each match. -/
def findAllModulF : Nat → List Char → List (List Char)
  | 0, _ => []
  | _ + 1, [] => []
  | fuel + 1, c :: rest =>
    match modulTokenAt (c :: rest) with
    | some (m, r) => m :: findAllModulF fuel r
    | none => findAllModulF fuel rest

/-- Order-preserving deduplication with a seen accumulator
(src/app/rag_engine.py, lines 216-222). -/
def dedupKeep : List (List Char) → List (List Char) → List (List Char)
  | [], _ => []
  | x :: rest, seen =>
    if seen.contains x then dedupKeep rest seen
    else x :: dedupKeep rest (x :: seen)

/-- Start test for a numbered list item, the re.match of ^\d+[\.\)]\s+ . -/
def numDotParen (l : List Char) : Bool :=
  let d := l.takeWhile isDigitCh
  if d.isEmpty then false
  else
    match l.dropWhile isDigitCh with
    | c :: rest =>
      (c = '.' || c = ')') &&
        (match rest with
         | r :: _ => isWs r
         | [] => false)
    | [] => false

/-- One explicit list line (src/app/rag_engine.py, lines 228-241): a short
bulleted or numbered line whose cleaned text mentions a module or pattern. -/
def listLineItem (line : List Char) : Option (List Char) :=
  let ls := stripL line
  if (isPfx "-".data ls || isPfx "•".data ls || numDotParen ls) && ls.length < 100 then
    let clean := ls.dropWhile (fun c =>
      c = '-' || c = '•' || isDigitCh c || c = '.' || c = ')' || isWs c)
    if clean.isEmpty = false &&
        (pyIn "modul".data (pyLowerL clean) || pyIn "pattern".data (pyLowerL clean)) then
      some clean
    else none
  else none

/-- Numbered rendering of the found items (src/app/rag_engine.py, line 245). -/
def numberItems (items : List (List Char)) : List Char :=
  joinWith ['\n'] (items.enum.map (fun p => natDigits (p.1 + 1) ++ '.' :: ' ' :: p.2))

/-- Item search over the chunk text (src/app/rag_engine.py, lines 186-251):
parenthesis content first, then module tokens anywhere (deduplicated, capped
at ten), then explicit list lines; the matched query group is unused by the
source beyond a debug print. -/
def listProcess (t : List Char) : Option (List Char) :=
  let found1 :=
    match scanFirst parenModulAt t with
    | some content => listFromParens content
    | none => []
  let found2 :=
    if found1.isEmpty then
      let alls := findAllModulF t.length t
      if alls.isEmpty then []
      else
        let d := dedupKeep alls []
        if d.length > 10 then d.take 10 else d
    else found1
  let found3 :=
    if found2.isEmpty then (splitOnCh '\n' t).filterMap listLineItem
    else found2
  if found3.isEmpty then none else some (numberItems (found3.take 10))

/-- Shallow embedding of RAGEngine._extract_list_answer
(src/app/rag_engine.py, lines 170-253): when either list pattern matches the
query, the item search decides the result; the second pattern is only tried
when the first finds no match in the query. -/
def extract_list_answer (query chunk_text : String) : Option String :=
  let ql := pyLowerL query.data
  let t := chunk_text.data
  match scanFirst listP1At ql with
  | some _ => (listProcess t).map sOf
  | none =>
    match scanFirst listP2At ql with
    | some _ => (listProcess t).map sOf
    | none => none

/-- Full-line test of the headline pattern ^[A-ZÄÖÜ][a-zäöü]+$ used by the
process branch (src/app/rag_engine.py, line 284). -/
def singleCapWord (l : List Char) : Bool :=
  match l with
  | c :: rest =>
    isUpperCh c && !rest.isEmpty &&
      rest.all (fun d => ('a' ≤ d && d ≤ 'z') || d = 'ä' || d = 'ö' || d = 'ü')
  | [] => false

/-- Collector of the process branch (src/app/rag_engine.py, lines 269-287):
once a project line is seen, collect stripped lines longer than 10 that are
not short headlines, stopping at ten. -/
def smartWieCollect : List (List Char) → Bool → List (List Char) → List (List Char)
  | [], _, acc => acc
  | line :: rest, found, acc =>
    let ll := pyLowerL line
    let ls := stripL line
    let found2 := found ||
      (pyIn "projekt".data ll &&
        (pyIn "erstellen".data ll || pyIn "anlegen".data ll ||
          pyIn "brauchen".data ll || pyIn "angaben".data ll))
    if found2 && ls.length > 10 && (!singleCapWord ls || ls.length > 50) then
      let acc2 := acc ++ [ls]
      if 10 ≤ acc2.length then acc2 else smartWieCollect rest found2 acc2
    else smartWieCollect rest found2 acc

/-- Lazy group of was (ist|bedeutet)\s+(.+?)(?:\?|$): the shortest nonempty
run of non-newline characters up to a question mark or the end of the string
(the end-anchor also matching before one final newline). -/
def lazyQmF : List Char → List Char → Option (List Char)
  | [], _ => none
  | c :: rest, acc =>
    if c = '\n' then none
    else
      let acc2 := acc ++ [c]
      match rest with
      | [] => some acc2
      | '?' :: _ => some acc2
      | ['\n'] => some acc2
      | _ => lazyQmF rest acc2

/-- Matcher at one position for was (ist|bedeutet)\s+(.+?)(?:\?|$) on the
lowercased query; returns group 2. -/
def wasIstAt (s : List Char) : Option (List Char) :=
  match dropPfx "was ".data s with
  | none => none
  | some r1 =>
    let afterVerb :=
      match dropPfx "ist".data r1 with
      | some r2 => some r2
      | none => dropPfx "bedeutet".data r1
    match afterVerb with
    | none => none
    | some r2 =>
      if (r2.takeWhile isWs).isEmpty then none
      else lazyQmF (r2.dropWhile isWs) []

/-- Start test of ^\d+\. for the chapter-listing branch
(src/app/rag_engine.py, line 324). -/
def startsNumDot (l : List Char) : Bool :=
  let d := l.takeWhile isDigitCh
  !d.isEmpty &&
    (match l.dropWhile isDigitCh with
     | '.' :: _ => true
     | _ => false)

/-- Stop words excluded from the question words of the keyword fallback
(src/app/rag_engine.py, line 335). -/
def questionStopWords : List (List Char) :=
  ["was", "ist", "welche", "welcher", "welches", "sind", "sind", "der", "die", "das"].map
    String.data

/-- Keyword fallback scan (src/app/rag_engine.py, lines 338-348): first line
containing the search word (case-insensitively) with stripped length over 10,
plus the following line when it is substantive. -/
def smartWordScan (word : List Char) : List (List Char) → Option (List Char)
  | [] => none
  | line :: rest =>
    if pyIn word (pyLowerL line) && (stripL line).length > 10 then
      match rest with
      | nxt :: _ =>
        if (stripL nxt).length > 20 then some (stripL line ++ '\n' :: stripL nxt)
        else some (stripL line)
      | [] => some (stripL line)
    else smartWordScan word rest

/-- Process-question branch (src/app/rag_engine.py, lines 266-296). -/
def smartWie (ql t : List Char) : Option (List Char) :=
  if pyIn "wie".data ql &&
      (pyIn "erstelle".data ql || pyIn "erstellen".data ql ||
        pyIn "anlegen".data ql || pyIn "anlege".data ql) then
    let parts := smartWieCollect (splitOnCh '\n' t) false []
    if parts.isEmpty then none
    else
      let answer := joinWith [' '] (parts.take 8)
      if answer.length > 500 then
        let sents := ((splitSent answer).map stripL).filter (fun s => s.length > 20)
        some (joinWith ". ".data (sents.take 5) ++ ['.'])
      else some answer
  else none

/-- Definition-question branch (src/app/rag_engine.py, lines 298-314). -/
def smartWasIst (ql t : List Char) : Option (List Char) :=
  if pyIn "was ist".data ql || pyIn "was bedeutet".data ql then
    match scanFirst wasIstAt ql with
    | none => none
    | some g =>
      let term := stripL g
      let relevant := ((splitOnCh '\n' t).filter (fun line =>
        pyIn term (pyLowerL line) && (stripL line).length > 10)).take 2
      if relevant.isEmpty then none
      else some (joinWith [' '] (relevant.map stripL))
  else none

/-- Chapter-listing branch (src/app/rag_engine.py, lines 316-331). -/
def smartWelche (ql t : List Char) : Option (List Char) :=
  if pyIn "welche".data ql &&
      (pyIn "namen".data ql || pyIn "begriffe".data ql || pyIn "kapitel".data ql) then
    let important := ((((splitOnCh '\n' t).take 20).map stripL).filter (fun line =>
      startsNumDot line ||
        (line.length > 5 && line.length < 100 &&
          (pySplitWs line).any (fun w =>
            match w with
            | c :: _ => isUpperCh c
            | [] => false)))).take 5
    if important.isEmpty then none else some (joinWith ['\n'] important)
  else none

/-- Keyword fallback branch (src/app/rag_engine.py, lines 333-348). -/
def smartWords (ql t : List Char) : Option (List Char) :=
  let question_words := (pySplitWs ql).filter (fun w =>
    w.length > 3 && !questionStopWords.contains w)
  match question_words with
  | [] => none
  | word :: _ => smartWordScan word (splitOnCh '\n' t)

/-- Model of str.upper on the letters involved (sharp s left unchanged; it
does not occur in the compared prefixes). -/
def pyUpperCh (c : Char) : Char :=
  if 'a' ≤ c ∧ c ≤ 'z' then Char.ofNat (c.toNat - 32)
  else if c = 'ä' then 'Ä'
  else if c = 'ö' then 'Ö'
  else if c = 'ü' then 'Ü'
  else c

/-- Model of str.upper on character lists. -/
def pyUpperL (l : List Char) : List Char :=
  l.map pyUpperCh

/-- Suffix test (str.endswith). -/
def isSfx (pat s : List Char) : Bool :=
  isPfx pat.reverse s.reverse

/-- Model of str.isupper: at least one cased character and no cased character
lowercase. -/
def pyIsUpper (l : List Char) : Bool :=
  l.any isAlphaCh && l.all (fun c => !isAlphaCh c || isUpperCh c)

/-- Quellen-line removal of clean_answer (src/app/rag_engine.py, line 371):
the sub of Quellen:.*?(?=newline|$) with IGNORECASE and MULTILINE removes,
from each case-insensitive Quellen: marker, everything up to but excluding
the next newline. -/
def removeQuellenF : Nat → List Char → List Char
  | 0, l => l
  | _ + 1, [] => []
  | fuel + 1, c :: rest =>
    if isPfxCI "quellen:".data (c :: rest) then
      removeQuellenF fuel ((c :: rest).dropWhile (fun d => d ≠ '\n'))
    else c :: removeQuellenF fuel rest

/-- Blacklist of structural tokens removed everywhere
(src/app/rag_engine.py, lines 374-384). -/
def planovoBlacklist : List String :=
  ["FELD:", "Pflicht:", "Typische Nutzerfragen", "FRAGE:", "ERWARTETE ANTWORT:",
   "TESTFRAGEN", "=== ", "--- ", "**"]

/-- Forbidden line starters compared case-insensitively
(src/app/rag_engine.py, line 394). -/
def forbiddenStarters : List String :=
  ["FRAGE:", "ERWARTETE ANTWORT:", "FELD:", "Pflicht:", "Typische Nutzerfragen",
   "Quellen:", "TESTFRAGEN"]

/-- Line filter of clean_answer (src/app/rag_engine.py, lines 396-424); the
kept element is the original unstripped line. -/
def planovoLineKeep (line : List Char) : Bool :=
  let ls := stripL line
  if forbiddenStarters.any (fun f => isPfx (pyUpperL f.data) (pyUpperL ls)) then false
  else if (isPfx "- ".data ls || isPfx "• ".data ls) &&
      (isSfx "?".data ls || (pySplitWs ls).length ≤ 5) then false
  else
    ls.isEmpty = false && !(isSfx ":".data ls && ls.length < 30) &&
      !(pyIsUpper ls && ls.length > 5) &&
      ((pySplitWs ls).length > 1 || ls.length > 15)

/-- Blank-run collapse of clean_answer (src/app/rag_engine.py, line 439): the
sub of newline\s*newline\s*newline+ by two newlines rewrites every whitespace
run holding at least three newlines, from its first to its last newline, into
exactly two. -/
def collapseNlF : Nat → List Char → List Char
  | 0, l => l
  | _ + 1, [] => []
  | fuel + 1, c :: rest =>
    if c = '\n' then
      let run := (c :: rest).takeWhile isWs
      if 3 ≤ (run.filter (fun d => d = '\n')).length then
        let afterRun := (c :: rest).dropWhile isWs
        let tailWs := (run.reverse.takeWhile (fun d => d ≠ '\n')).reverse
        '\n' :: '\n' :: collapseNlF fuel (tailWs ++ afterRun)
      else c :: collapseNlF fuel rest
    else c :: collapseNlF fuel rest

/-- Body of clean_answer for the Planovo tenant
(src/app/rag_engine.py, lines 369-441). -/
def cleanPlanovoBody (text : List Char) : List Char :=
  let t1 := removeQuellenF text.length text
  let cleaned := planovoBlacklist.foldl (fun acc item => pyReplace acc item.data []) t1
  let kept := (splitOnCh '\n' cleaned).filter planovoLineKeep
  let result := stripL (joinWith ['\n'] kept)
  let result2 :=
    match splitOnCh '\n' result with
    | first :: restL =>
      if isSfx "?".data (stripL first) ∧ (pySplitWs (stripL first)).length ≤ 8 then
        stripL (joinWith ['\n'] restL)
      else result
    | [] => result
  collapseNlF result2.length result2

/-- Shallow embedding of RAGEngine.clean_answer (src/app/rag_engine.py,
lines 352-441): the identity unless the tenant is planovo (case-insensitive)
and the text nonempty, in which case the Planovo cleaning body runs. -/
def clean_answer (text : String) (company_id : Option String) : String :=
  match company_id with
  | none => text
  | some cid =>
    if cid.data.isEmpty ∨ pyLowerL cid.data ≠ "planovo".data then text
    else if text.data.isEmpty then text
    else sOf (cleanPlanovoBody text.data)

/-- Shallow embedding of RAGEngine._extract_smart_answer
(src/app/rag_engine.py, lines 255-350): list extraction first (kept when
truthy), then the process, definition, chapter-listing and keyword branches. -/
def extract_smart_answer (query chunk_text : String) : Option String :=
  let ql := pyLowerL query.data
  let t := chunk_text.data
  let fromList :=
    match extract_list_answer query chunk_text with
    | some la => if la.data.isEmpty then none else some la
    | none => none
  match fromList with
  | some la => some la
  | none =>
    (oElse (smartWie ql t) (oElse (smartWasIst ql t)
      (oElse (smartWelche ql t) (smartWords ql t)))).map sOf

/-- Trigger guards of the Fact tier branches, grouped exactly as the branch
conditions of _extract_simple_answer; when all are false the matcher reaches
its final return None. -/
def simpleTriggers (query : String) : Bool :=
  let ql := pyLowerL query.data
  (pyIn "gesamtbetrag".data ql || (pyIn "wie hoch".data ql && pyIn "betrag".data ql)) ||
  pyIn "nettobetrag".data ql ||
  (pyIn "skonto".data ql || pyIn "spare".data ql ||
    (pyIn "wie viel".data ql && pyIn "spare".data ql)) ||
  (pyIn "datum".data ql || pyIn "wann".data ql) ||
  (pyIn "firma".data ql || pyIn "unternehmen".data ql ||
    (pyIn "wie heißt".data ql && pyIn "firma".data ql)) ||
  (pyIn "rechnungsnummer".data ql || (pyIn "rechnung".data ql && pyIn "nummer".data ql) ||
    pyIn "inv".data ql) ||
  (pyIn "fazit".data ql || pyIn "ausblick".data ql) ||
  (scanFirst kapitelAt ql).isSome

/-- Trigger guards of the List tier: one of the two query patterns matches. -/
def listTriggers (query : String) : Bool :=
  let ql := pyLowerL query.data
  (scanFirst listP1At ql).isSome || (scanFirst listP2At ql).isSome

/-- Trigger guards of the Contextual tier branches. -/
def smartTriggers (query : String) : Bool :=
  let ql := pyLowerL query.data
  listTriggers query ||
  (pyIn "wie".data ql && (pyIn "erstelle".data ql || pyIn "erstellen".data ql ||
    pyIn "anlegen".data ql || pyIn "anlege".data ql)) ||
  (pyIn "was ist".data ql || pyIn "was bedeutet".data ql) ||
  (pyIn "welche".data ql && (pyIn "namen".data ql || pyIn "begriffe".data ql ||
    pyIn "kapitel".data ql)) ||
  !((pySplitWs ql).filter (fun w => w.length > 3 && !questionStopWords.contains w)).isEmpty

end RAGEngine

theorem extract_simple_none (q t : String) (h : RAGEngine.simpleTriggers q = false) :
    RAGEngine.extract_simple_answer q t = none := by
  simp only [RAGEngine.simpleTriggers, Bool.or_eq_false_iff] at h
  obtain ⟨⟨⟨⟨⟨⟨⟨h1, h2⟩, h3⟩, h4⟩, h5⟩, h6⟩, h7⟩, h8⟩ := h
  rcases hk : scanFirst kapitelAt (pyLowerL q.data) with _ | v
  · simp [RAGEngine.extract_simple_answer, RAGEngine.esaGesamt, RAGEngine.esaNetto,
      RAGEngine.esaSkonto, RAGEngine.esaDatum, RAGEngine.esaFirma, RAGEngine.esaRechnung,
      RAGEngine.esaFazit, RAGEngine.esaKapitel, h1, h2, h3, h4, h5, h6, h7, hk, oElse]
  · rw [hk] at h8
    simp at h8

theorem extract_list_none (q t : String) (h : RAGEngine.listTriggers q = false) :
    RAGEngine.extract_list_answer q t = none := by
  simp only [RAGEngine.listTriggers, Bool.or_eq_false_iff] at h
  obtain ⟨h1, h2⟩ := h
  rcases hp1 : scanFirst RAGEngine.listP1At (pyLowerL q.data) with _ | v
  · rcases hp2 : scanFirst RAGEngine.listP2At (pyLowerL q.data) with _ | w
    · simp [RAGEngine.extract_list_answer, hp1, hp2]
    · rw [hp2] at h2
      simp at h2
  · rw [hp1] at h1
    simp at h1

theorem extract_smart_none (q t : String) (h : RAGEngine.smartTriggers q = false) :
    RAGEngine.extract_smart_answer q t = none := by
  simp only [RAGEngine.smartTriggers, Bool.or_eq_false_iff] at h
  obtain ⟨⟨⟨⟨hl, hwie⟩, hwas⟩, hwel⟩, hqw⟩ := h
  have hlist := extract_list_none q t hl
  have hqw2 : (pySplitWs (pyLowerL q.data)).filter
      (fun w => w.length > 3 && !RAGEngine.questionStopWords.contains w) = [] := by
    rcases hfe : (pySplitWs (pyLowerL q.data)).filter
        (fun w => w.length > 3 && !RAGEngine.questionStopWords.contains w) with _ | ⟨a, l⟩
    · exact hfe
    · rw [hfe] at hqw
      simp at hqw
  simp only [RAGEngine.extract_smart_answer, hlist, RAGEngine.smartWords, hqw2]
  simp [RAGEngine.smartWie, RAGEngine.smartWasIst, RAGEngine.smartWelche,
    hwie, hwas, hwel, oElse]

/-- Claim C9: each extraction matcher is a total function returning an
optional string, and returns None when none of its trigger patterns matches
the query. -/
theorem claim_C9 :
    (∀ q t : String, RAGEngine.extract_simple_answer q t = none ∨
      ∃ s, RAGEngine.extract_simple_answer q t = some s) ∧
    (∀ q t : String, RAGEngine.extract_list_answer q t = none ∨
      ∃ s, RAGEngine.extract_list_answer q t = some s) ∧
    (∀ q t : String, RAGEngine.extract_smart_answer q t = none ∨
      ∃ s, RAGEngine.extract_smart_answer q t = some s) ∧
    (∀ q t : String, RAGEngine.simpleTriggers q = false →
      RAGEngine.extract_simple_answer q t = none) ∧
    (∀ q t : String, RAGEngine.listTriggers q = false →
      RAGEngine.extract_list_answer q t = none) ∧
    (∀ q t : String, RAGEngine.smartTriggers q = false →
      RAGEngine.extract_smart_answer q t = none) := by
  refine ⟨?_, ?_, ?_, extract_simple_none, extract_list_none, extract_smart_none⟩ <;>
    intro q t
  · rcases h : RAGEngine.extract_simple_answer q t with _ | s
    · exact Or.inl rfl
    · exact Or.inr ⟨s, rfl⟩
  · rcases h : RAGEngine.extract_list_answer q t with _ | s
    · exact Or.inl rfl
    · exact Or.inr ⟨s, rfl⟩
  · rcases h : RAGEngine.extract_smart_answer q t with _ | s
    · exact Or.inl rfl
    · exact Or.inr ⟨s, rfl⟩

/-- Witness for claim C9: the no-trigger hypotheses hold at the concrete query
zu, and each matcher returns none there. -/
theorem claim_C9_witness :
    RAGEngine.simpleTriggers "zu" = false ∧
    RAGEngine.listTriggers "zu" = false ∧
    RAGEngine.smartTriggers "zu" = false ∧
    RAGEngine.extract_simple_answer "zu" "ein Text" = none ∧
    RAGEngine.extract_list_answer "zu" "ein Text" = none ∧
    RAGEngine.extract_smart_answer "zu" "ein Text" = none :=
  ⟨by decide, by decide, by decide,
   claim_C9.2.2.2.1 "zu" "ein Text" (by decide),
   claim_C9.2.2.2.2.1 "zu" "ein Text" (by decide),
   claim_C9.2.2.2.2.2 "zu" "ein Text" (by decide)⟩

/-- Claim C3 counterexample: on section text holding Gesamtbetrag: 100,00 €
and a query holding Gesamtbetrag, the Fact tier answers with a prose prefix,
not the bare value 100,00 €. -/
theorem claim_C3_counterexample :
    RAGEngine.extract_simple_answer "Gesamtbetrag" "Gesamtbetrag: 100,00 €" =
      some "Der Gesamtbetrag beträgt 100,00 €" ∧
    RAGEngine.extract_simple_answer "Gesamtbetrag" "Gesamtbetrag: 100,00 €" ≠
      some "100,00 €" :=
  ⟨by decide, by decide⟩

/-- Claim C3 as amended: for every query containing Gesamtbetrag
(case-insensitively) the Fact tier on the section text Gesamtbetrag: 100,00 €
deterministically returns the sentence Der Gesamtbetrag beträgt 100,00 €
(the extracted value behind a fixed prose prefix). -/
theorem claim_C3_amended :
    ∀ query : String, pyIn "gesamtbetrag".data (pyLowerL query.data) = true →
      RAGEngine.extract_simple_answer query "Gesamtbetrag: 100,00 €" =
        some "Der Gesamtbetrag beträgt 100,00 €" := by
  intro q h
  simp only [RAGEngine.extract_simple_answer, RAGEngine.esaGesamt, h, Bool.true_or, if_true]
  rfl

/-- Witness for claim C3 as amended at a concrete query. -/
theorem claim_C3_amended_witness :
    pyIn "gesamtbetrag".data (pyLowerL "Wie hoch ist der Gesamtbetrag?".data) = true ∧
    RAGEngine.extract_simple_answer "Wie hoch ist der Gesamtbetrag?" "Gesamtbetrag: 100,00 €" =
      some "Der Gesamtbetrag beträgt 100,00 €" :=
  ⟨by decide, claim_C3_amended "Wie hoch ist der Gesamtbetrag?" (by decide)⟩

/-- Claim C10: clean_answer is the identity for every tenant other than
planovo; only the planovo tenant (case-insensitive) ever has answers
rewritten. -/
theorem claim_C10 :
    (∀ text : String, RAGEngine.clean_answer text none = text) ∧
    (∀ (text : String) (cid : String), pyLowerL cid.data ≠ "planovo".data →
      RAGEngine.clean_answer text (some cid) = text) := by
  constructor
  · intro text
    rfl
  · intro text cid h
    simp only [RAGEngine.clean_answer]
    rw [if_pos (Or.inr h)]

/-- Witness for claim C10 at a concrete non-planovo tenant and a text the
planovo cleaning would rewrite. -/
theorem claim_C10_witness :
    pyLowerL "acme".data ≠ "planovo".data ∧
    RAGEngine.clean_answer "FELD: Testantwort" (some "acme") = "FELD: Testantwort" :=
  ⟨by decide, claim_C10.2 "FELD: Testantwort" "acme" (by decide)⟩

/-- Outcome of one HTTP generate call against the Ollama backend, as read from
the oracle: a successful response text, a requests timeout, a connection
error, or any other exception (for example a raise_for_status failure). -/
inductive GenOutcome
  | ok (s : String)
  | timeout
  | connError
  | genError
deriving DecidableEq, Repr

/-- Exception kinds raised out of the generation path. -/
inductive GenErr
  | timeoutErr
  | connErr
  | otherErr
  | noModel
deriving DecidableEq, Repr

/-- One backend call as issued: the model requested, the timeout passed to the
HTTP client, and whether the call used the fallback model slot. -/
structure GenCall where
  model : String
  timeoutSec : Nat
  usedFallback : Bool
deriving DecidableEq, Repr

/-- LocalLLM instance state: primary and fallback model names
(src/app/local_llm.py, lines 24-26; the base URL is irrelevant to the claims). -/
structure LLMInst where
  model : String
  fallback_model : String
deriving DecidableEq, Repr

/-- Default of the LLM_FALLBACK_MODEL environment variable
(src/app/local_llm.py, line 26). -/
def defaultFallbackModel : String := "llama3.2:1b"

deriving instance DecidableEq for Except

/-- Result of an embedded generation call: the returned answer or raised error,
the next oracle index, and the backend calls issued in order. -/
structure GenResult where
  res : Except GenErr String
  next : Nat
  calls : List GenCall
deriving DecidableEq, Repr

namespace LocalLLM

/-- Timeout chosen from the model name when none is passed
(src/app/local_llm.py, lines 93-106). -/
def timeoutByModel (model_to_use : String) (use_fallback : Bool) : Nat :=
  if pyInS "8x22b" model_to_use || pyInS "72b" model_to_use then 300
  else if pyInS "32b" model_to_use then 180
  else if pyInS "7b" model_to_use then 90
  else if pyInS "3b" model_to_use then 60
  else if use_fallback then 60
  else 60

/-- One backend request (the requests.post of src/app/local_llm.py,
lines 108-125), reading its outcome from the oracle; a successful response is
result.get with default empty then strip. -/
def attemptOnce (llm : LLMInst) (use_fallback : Bool) (timeoutArg : Option Nat)
    (oracle : Nat → GenOutcome) (n : Nat) : (Except GenErr String) × GenCall :=
  let model_to_use := if use_fallback then llm.fallback_model else llm.model
  let t := match timeoutArg with
    | some t => t
    | none => timeoutByModel model_to_use use_fallback
  let r : Except GenErr String :=
    match oracle n with
    | .ok s => .ok (pyStrip s)
    | .timeout => .error .timeoutErr
    | .connError => .error .connErr
    | .genError => .error .otherErr
  (r, ⟨model_to_use, t, use_fallback⟩)

/-- Shallow embedding of LocalLLM.generate (src/app/local_llm.py, lines 51-140):
on a timeout or generic exception of the primary call, one recursive retry with
the fallback model, use_fallback set and no timeout argument (so the timeout is
recomputed from the fallback model name); a connection error is re-raised
without the internal retry; with use_fallback already set every error is
re-raised. -/
def generate (llm : LLMInst) (use_fallback : Bool) (timeoutArg : Option Nat)
    (oracle : Nat → GenOutcome) (n : Nat) : GenResult :=
  let first := attemptOnce llm use_fallback timeoutArg oracle n
  match first.1 with
  | .ok s => ⟨.ok s, n + 1, [first.2]⟩
  | .error .connErr => ⟨.error .connErr, n + 1, [first.2]⟩
  | .error e =>
    if use_fallback = false ∧ llm.fallback_model ≠ llm.model then
      let second := attemptOnce llm true none oracle (n + 1)
      match second.1 with
      | .ok s => ⟨.ok s, n + 2, [first.2, second.2]⟩
      | .error e2 => ⟨.error e2, n + 2, [first.2, second.2]⟩
    else ⟨.error e, n + 1, [first.2]⟩

end LocalLLM

namespace LLMRouter

/-- Model tier configuration entry: the per-tier dicts of _load_config
(src/app/llm_router.py, lines 47-72). -/
structure TierCfg where
  model : String
  fallback : Option String
  max_tokens : Nat
  temperature : ℚ
  timeoutSec : Option Nat
deriving DecidableEq, Repr

/-- Router state: the three tier configurations and the three initialized
LocalLLM instances (none when initialization failed),
mirroring self.model_configs and self.models. -/
structure RouterState where
  fastCfg : TierCfg
  standardCfg : TierCfg
  reasoningCfg : TierCfg
  fastLLM : Option LLMInst
  standardLLM : Option LLMInst
  reasoningLLM : Option LLMInst
deriving DecidableEq, Repr

/-- Lookup self.model_configs for a tier name. -/
def cfgOf (st : RouterState) (tier : String) : TierCfg :=
  if tier = "fast" then st.fastCfg
  else if tier = "standard" then st.standardCfg
  else st.reasoningCfg

/-- Lookup self.models for a tier name. -/
def llmOf (st : RouterState) (tier : String) : Option LLMInst :=
  if tier = "fast" then st.fastLLM
  else if tier = "standard" then st.standardLLM
  else st.reasoningLLM

/-- Shallow embedding of LLMRouter.route (src/app/llm_router.py, lines 147-189):
tier from the complexity score, then the availability fallback to the standard
and finally the fast model. -/
def route (st : RouterState) (query : String) (chunks : List Chunk) (rsq : ℚ) :
    Option LLMInst × TierCfg :=
  let model_type := route_model_type query chunks rsq
  let llm := llmOf st model_type
  let config := cfgOf st model_type
  match llm with
  | some l => (some l, config)
  | none =>
    match st.standardLLM with
    | some l => (some l, st.standardCfg)
    | none => (st.fastLLM, st.fastCfg)

/-- Shallow embedding of LLMRouter.generate (src/app/llm_router.py,
lines 191-248): primary call with use_fallback false and the configured
timeout; on any exception, when a fallback model is configured and differs
from the primary, one further call on a fresh LocalLLM with use_fallback true
and timeout the maximum of 60 and int(0.7 times the configured timeout)
(exact integer arithmetic models the float truncation). -/
def generate (st : RouterState) (query : String) (chunks : List Chunk) (rsq : ℚ)
    (oracle : Nat → GenOutcome) (n : Nat) : GenResult :=
  match route st query chunks rsq with
  | (none, _) => ⟨.error .noModel, n, []⟩
  | (some llm, config) =>
    let config_timeout := config.timeoutSec
    let primary := LocalLLM.generate llm false config_timeout oracle n
    match primary.res with
    | .ok _ => primary
    | .error e =>
      match config.fallback with
      | some fb =>
        if fb ≠ "" ∧ fb ≠ config.model then
          let fallback_llm : LLMInst := ⟨fb, defaultFallbackModel⟩
          let fallback_timeout :=
            match config_timeout with
            | some t => max (t * 7 / 10) 60
            | none => 60
          let second := LocalLLM.generate fallback_llm true (some fallback_timeout) oracle primary.next
          ⟨second.res, second.next, primary.calls ++ second.calls⟩
        else ⟨.error e, primary.next, primary.calls⟩
      | none => ⟨.error e, primary.next, primary.calls⟩

/-- Fast tier with the default environment (src/app/llm_router.py, lines 48-55). -/
def defaultFastCfg : TierCfg := ⟨"qwen2.5:3b", some "llama3.2:1b", 150, qc 1 10, some 10⟩

/-- Standard tier with the default environment (lines 56-63). -/
def defaultStandardCfg : TierCfg := ⟨"qwen2.5:7b", some "llama3.2:1b", 400, qc 2 10, some 30⟩

/-- Reasoning tier with the default environment (lines 64-71):
primary and fallback are both the standard model. -/
def defaultReasoningCfg : TierCfg := ⟨"qwen2.5:7b", some "qwen2.5:7b", 600, qc 3 10, some 60⟩

/-- Router state after _initialize_models succeeds for every tier with the
default configuration. -/
def defaultRouterState : RouterState :=
  ⟨defaultFastCfg, defaultStandardCfg, defaultReasoningCfg,
   some ⟨"qwen2.5:3b", "llama3.2:1b"⟩,
   some ⟨"qwen2.5:7b", "llama3.2:1b"⟩,
   some ⟨"qwen2.5:7b", "qwen2.5:7b"⟩⟩

end LLMRouter

/-- RAG engine configuration as set up by __init__
(src/app/rag_engine.py, lines 20-56): router mode with the router state, or
legacy mode with the main and fast LocalLLM instances. -/
structure EngineCfg where
  use_router : Bool
  use_local : Bool
  router : LLMRouter.RouterState
  llm : Option LLMInst
  fast_llm : Option LLMInst
deriving Repr

/-- Engine configuration of the default environment: router mode active,
legacy instances as LocalLLM defaults. -/
def defaultEngineCfg : EngineCfg :=
  ⟨true, true, LLMRouter.defaultRouterState,
   some ⟨"qwen2.5:7b", "llama3.2:1b"⟩, some ⟨"qwen2.5:3b", "llama3.2:1b"⟩⟩

/-- Tenant test company_id and company_id.lower() == planovo. -/
def isPlanovoCid (cid : Option String) : Bool :=
  match cid with
  | some c => !c.data.isEmpty && pyLowerL c.data == "planovo".data
  | none => false

/-- Simple-fact keywords of generate_answer (src/app/rag_engine.py, line 477). -/
def simpleFactKeywords : List String :=
  ["gesamtbetrag", "nettobetrag", "rechnungsnummer", "datum", "fällig", "firma",
   "unternehmen", "name"]

/-- Simple-question keywords of the legacy path (src/app/rag_engine.py, line 602). -/
def legacySimpleKeywords : List String :=
  ["wie hoch", "betrag", "preis", "kosten", "datum", "wann", "fällig", "rechnungsnummer",
   "firma", "unternehmen", "name", "skonto", "spare", "rabatt", "wie viel", "gesamtbetrag"]

/-- Planovo support prompt of generate_answer (src/app/rag_engine.py,
lines 502-524); its content only flows to the backend, which the oracle
abstracts. -/
def planovoPrompt (context query : String) : String :=
  "Du bist Planovo Support.\n\nBeantworte die Nutzerfrage kurz und direkt.\nNutze die Dokumente nur als Wissensquelle.\n\nWICHTIGE REGELN:\n- Gib NUR die fertige Antwort aus.\n- KEINE Überschriften.\n- KEINE Feldnamen.\n- KEINE Wörter wie: \"FRAGE:\", \"ERWARTETE ANTWORT:\", \"FELD:\", \"Pflicht:\", \"Typische Nutzerfragen\", \"Quellen:\", \"TESTFRAGEN\".\n- KEINE Quellen-Informationen oder Quellen-Angaben in der Antwort.\n- KEINE Meta-Erklärung.\n- KEINE Struktur-Labels.\n- Wenn die Frage nach Optionen/Auswahl fragt (z.B. \"welchen X soll ich wählen\"), liste die verfügbaren Optionen auf.\n- Antworte IMMER direkt - wiederhole NICHT die Frage.\n\nDOKUMENTE:\n"
    ++ context ++ "\n\nNUTZERFRAGE:\n" ++ query
    ++ "\n\nANTWORT (nur die Antwort, keine Labels, keine Frage-Wiederholung):"

/-- Standard prompt of generate_answer (src/app/rag_engine.py, lines 527-542). -/
def standardPrompt (context query : String) : String :=
  "Du bist ein Support-Mitarbeiter. Antworte auf die Frage des Kunden basierend auf den folgenden Dokumenten.\n\n=== WICHTIG ===\n- Antworte direkt auf die konkrete Frage\n- Nutze die Informationen aus den Dokumenten\n- Sei kurz und präzise\n- Frage nach, wenn wichtige Informationen fehlen\n\n=== DOKUMENTE ===\n"
    ++ context ++ "\n\n=== FRAGE DES KUNDEN ===\n" ++ query
    ++ "\n\n=== DEINE ANTWORT ===\nAntworte jetzt direkt auf die Frage. Nutze die Informationen aus den Dokumenten, aber formuliere in eigenen Worten."

/-- Re-extraction chain used after copy-paste detection and on engine errors
(src/app/rag_engine.py, for example lines 565-572): Fact tier then Contextual
tier, each cleaned, with Python truthiness on the results. -/
def reExtract (query chunk_text : String) (cid : Option String) : Option String :=
  let e1 := RAGEngine.extract_simple_answer query chunk_text
  if pyTruthy e1 then e1.map (fun e => RAGEngine.clean_answer e cid)
  else
    let e2 := RAGEngine.extract_smart_answer query chunk_text
    if pyTruthy e2 then e2.map (fun e => RAGEngine.clean_answer e cid)
    else none

/-- First sentences of the chunk (src/app/rag_engine.py, lines 589-593):
the stripped sentence pieces longer than 20 characters, first three, joined. -/
def chunkSentences (chunk_text : String) : Option String :=
  let relevant := (((splitSent chunk_text.data).map stripL).filter
    (fun s => s.length > 20)).take 3
  if relevant.isEmpty then none
  else some (sOf (joinWith ". ".data relevant ++ ['.']))

/-- Truncation of the chunk to 200 characters with an ellipsis
(src/app/rag_engine.py, line 595). -/
def chunk200 (chunk_text : String) : String :=
  if chunk_text.data.length > 200 then sOf (chunk_text.data.take 200 ++ "...".data)
  else chunk_text

/-- Answer or raised error of the embedded generate_answer, with the next
oracle index. -/
structure AnswerResult where
  res : Except GenErr String
  next : Nat
deriving DecidableEq, Repr

namespace RAGEngine

/-- Shallow embedding of RAGEngine.generate_answer (src/app/rag_engine.py,
lines 443-697): the no-context and no-generation early returns, the
simple-fact pre-extraction, then the router path (with its exact-match-only
copy-paste check and catch-all extraction fallback) or the legacy fast/complex
paths; built prompts flow to the backend, which the oracle abstracts, so they
do not influence outcomes. -/
def generate_answer (cfg : EngineCfg) (query : String) (context_chunks : List Chunk)
    (rsq : ℚ) (use_rag : Bool) (company_id : Option String)
    (oracle : Nat → GenOutcome) (n : Nat) : AnswerResult :=
  match context_chunks with
  | [] => ⟨.ok "Keine relevanten Informationen gefunden.", n⟩
  | chunk0 :: restCh =>
    if use_rag = false then
      ⟨.ok (clean_answer chunk0.text company_id), n⟩
    else
      let chunk_text := chunk0.text
      let ql := pyLowerL query.data
      let is_simple_fact := simpleFactKeywords.any (fun kw => pyIn kw.data ql)
      let preExtract : Option String :=
        if is_simple_fact then
          let e := extract_simple_answer query chunk_text
          if pyTruthy e then e.map (fun x => clean_answer x company_id) else none
        else none
      match preExtract with
      | some e => ⟨.ok e, n⟩
      | none =>
        let context := joinSep "\n\n"
          ((chunk0 :: restCh).map (fun c => c.title ++ ":\n" ++ c.text))
        let is_planovo := isPlanovoCid company_id
        let _prompt :=
          if is_planovo then planovoPrompt context query else standardPrompt context query
        if cfg.use_router && cfg.use_local then
          let r := LLMRouter.generate cfg.router query (chunk0 :: restCh) rsq oracle n
          match r.res with
          | .ok a0 =>
            let answer := clean_answer a0 company_id
            if stripL answer.data = stripL chunk_text.data then
              match reExtract query chunk_text company_id with
              | some e => ⟨.ok e, r.next⟩
              | none => ⟨.ok answer, r.next⟩
            else ⟨.ok answer, r.next⟩
          | .error _ =>
            match reExtract query chunk_text company_id with
            | some e => ⟨.ok e, r.next⟩
            | none =>
              match chunkSentences chunk_text with
              | some s => ⟨.ok (clean_answer s company_id), r.next⟩
              | none => ⟨.ok (clean_answer (chunk200 chunk_text) company_id), r.next⟩
        else
          match cfg.llm with
          | some mainLLM =>
            if cfg.use_local && !cfg.use_router then
              let is_simple_question := legacySimpleKeywords.any (fun kw => pyIn kw.data ql)
              if is_simple_question && qlt (qc 3 10) rsq && cfg.fast_llm.isSome then
                let afterAnswer := fun (answer : String) (next : Nat) =>
                  if stripL answer.data = stripL chunk_text.data then
                    match reExtract query chunk_text company_id with
                    | some e => (⟨.ok e, next⟩ : AnswerResult)
                    | none => ⟨.ok answer, next⟩
                  else ⟨.ok answer, next⟩
                match cfg.fast_llm with
                | some fastLLM =>
                  let r1 := LocalLLM.generate fastLLM false none oracle n
                  match r1.res with
                  | .ok aFast => afterAnswer aFast r1.next
                  | .error _ =>
                    let r2 := LocalLLM.generate mainLLM false none oracle r1.next
                    match r2.res with
                    | .ok a2 => afterAnswer (clean_answer a2 company_id) r2.next
                    | .error e => ⟨.error e, r2.next⟩
                | none => ⟨.ok (clean_answer chunk_text company_id), n⟩
              else
                let r := LocalLLM.generate mainLLM false none oracle n
                match r.res with
                | .ok a =>
                  let answer := clean_answer a company_id
                  let astr := stripL answer.data
                  let cstr := stripL chunk_text.data
                  if astr = cstr || pyIn astr cstr || pyIn cstr astr then
                    match reExtract query chunk_text company_id with
                    | some e => ⟨.ok e, r.next⟩
                    | none => ⟨.ok answer, r.next⟩
                  else ⟨.ok answer, r.next⟩
                | .error _ =>
                  match reExtract query chunk_text company_id with
                  | some e => ⟨.ok e, r.next⟩
                  | none =>
                    match chunkSentences chunk_text with
                    | some s => ⟨.ok (clean_answer s company_id), r.next⟩
                    | none => ⟨.ok (clean_answer chunk_text company_id), r.next⟩
            else ⟨.ok (clean_answer chunk_text company_id), n⟩
          | none => ⟨.ok (clean_answer chunk_text company_id), n⟩

end RAGEngine

/-- Greeting set of is_greeting (src/app/main.py, lines 108-113). -/
def greetings : List String :=
  ["hallo", "hi", "hey", "guten tag", "guten morgen", "guten abend", "servus", "moin"]

/-- Shallow embedding of is_greeting (src/app/main.py, lines 108-113). -/
def is_greeting (text : String) : Bool :=
  greetings.contains (sOf (pyLowerL (stripL text.data)))

/-- HTTPException as raised by the chat handler. -/
inductive ChatErr
  | http (code : Nat) (msg : String)
deriving DecidableEq, Repr

/-- One provenance entry of the response sources list
(src/app/chat_handler.py, lines 171-178). -/
structure SourceEntry where
  title : String
  score : ℚ
  source_id : String
deriving DecidableEq, Repr

/-- Response dictionary of process_chat_query; absent keys are modelled as
none (the greeting and no-hit returns carry fewer keys than the main one). -/
structure ChatResult where
  answer : String
  mode : String
  rsq : Option ℚ
  topic : Option String
  sources : Option (List SourceEntry)
deriving DecidableEq, Repr

/-- Result of the embedded process_chat_query together with the number of
generation backend calls issued. -/
structure ChatOutcome where
  res : Except ChatErr ChatResult
  ncalls : Nat
deriving DecidableEq, Repr

/-- Clarification answer of the low-relevance path
(src/app/chat_handler.py, lines 109 and 142). -/
def lowRelevanceAnswer : String :=
  "Dazu habe ich leider keine Informationen. Können Sie die Frage anders formulieren? Oder sagen Sie mir, wobei ich Ihnen konkret helfen kann."

/-- Answer of the no-hits fallback (src/app/chat_handler.py, line 165). -/
def noInfoAnswer : String :=
  "Dazu habe ich keine Informationen gefunden. Können Sie die Frage anders formulieren? Oder sagen Sie mir, wobei ich Ihnen helfen kann."

namespace ChatHandler

/-- Fallback extraction of the chat handler (src/app/chat_handler.py,
lines 99-101): Fact tier, then Contextual tier when the first is falsy. -/
def extractedOpt (q chunk_text : String) : Option String :=
  let e1 := RAGEngine.extract_simple_answer q chunk_text
  if pyTruthy e1 then e1 else RAGEngine.extract_smart_answer q chunk_text

/-- Usability test of the fallback extraction (src/app/chat_handler.py,
line 103): truthy, different from the chunk, and shorter than half of it. -/
def isExtractedB (q chunk_text : String) : Bool :=
  match extractedOpt q chunk_text with
  | some e =>
    !e.data.isEmpty && e ≠ chunk_text && 2 * e.data.length < chunk_text.data.length
  | none => false

/-- Shallow embedding of process_chat_query (src/app/chat_handler.py,
lines 12-186): greeting short-circuit, tenant checks, retrieval hits as
input (the TF-IDF search itself is the external boundary), confidence,
then the generation, exception-fallback or no-generation paths, and the
response assembly with the planovo source suppression. -/
def process_chat_query (query : String) (companyExists : Bool) (indexOk : Bool)
    (hits : List TopicHit) (cfg : EngineCfg) (company_id : Option String)
    (use_rag : Bool) (oracle : Nat → GenOutcome) : ChatOutcome :=
  let q := pyStrip query
  if is_greeting q then
    ⟨.ok ⟨"Hallo! Womit kann ich Ihnen helfen?", "greeting", none, none, none⟩, 0⟩
  else
    match company_id with
    | none => ⟨.error (.http 400 "company_id ist erforderlich"), 0⟩
    | some cid =>
      if cid.data.isEmpty then ⟨.error (.http 400 "company_id ist erforderlich"), 0⟩
      else if companyExists = false then
        ⟨.error (.http 404 "Kein Dokument für Firma gefunden"), 0⟩
      else if indexOk = false then
        ⟨.error (.http 500 "Index konnte nicht geladen werden"), 0⟩
      else
        let rsq := TopicIndex.rsq_from_hits hits
        let context_chunks := hits.map TopicHit.doc
        match context_chunks with
        | [] => ⟨.ok ⟨noInfoAnswer, "fallback", some rsq, none, none⟩, 0⟩
        | chunk0 :: _ =>
          let return_sources : List SourceEntry :=
            if isPlanovoCid (some cid) then []
            else hits.map (fun h => ⟨h.doc.title, round3 h.score, h.doc.id⟩)
          let mkMain := fun (answer mode : String) =>
            (⟨answer, mode, some rsq, some chunk0.title, some return_sources⟩ : ChatResult)
          let chunk_text := chunk0.text
          let extractionPath := fun (firstMode finalMode : String) (ncalls : Nat) =>
            let extracted := extractedOpt q chunk_text
            if isExtractedB q chunk_text then
              (⟨.ok (mkMain (extracted.getD "") firstMode), ncalls⟩ : ChatOutcome)
            else if qlt rsq (qc 1 20) then
              ⟨.ok (mkMain lowRelevanceAnswer "low_relevance"), ncalls⟩
            else
              let e2 := RAGEngine.extract_smart_answer q chunk_text
              let fallbackSent :=
                match chunkSentences chunk_text with
                | some s => s
                | none => chunk200 chunk_text
              let answer0 :=
                match e2 with
                | some x => if !x.data.isEmpty && x.data.length > 10 then x else fallbackSent
                | none => fallbackSent
              let answer :=
                if isPlanovoCid (some cid) then RAGEngine.clean_answer answer0 (some cid)
                else answer0
              ⟨.ok (mkMain answer finalMode), ncalls⟩
          if use_rag then
            let g := RAGEngine.generate_answer cfg q context_chunks rsq true (some cid) oracle 0
            match g.res with
            | .ok answer => ⟨.ok (mkMain answer "rag"), g.next⟩
            | .error _ => extractionPath "retrieval_fallback" "retrieval_fallback" g.next
          else
            extractionPath "retrieval_fast" "retrieval" 0

end ChatHandler

/-- Number of backend calls issued with the fallback model slot. -/
def fallbackAttempts (r : GenResult) : Nat :=
  (r.calls.filter (fun c => c.usedFallback)).length

theorem timeoutByModel_ge_60 (m : String) (b : Bool) :
    60 ≤ LocalLLM.timeoutByModel m b := by
  rw [LocalLLM.timeoutByModel]
  split_ifs <;> norm_num

theorem genFalse_spec (llm : LLMInst) (targ : Option Nat) (oracle : Nat → GenOutcome) (n : Nat) :
    ((LocalLLM.generate llm false targ oracle n).calls.filter (fun c => c.usedFallback)).length ≤ 1 ∧
    (LocalLLM.generate llm false targ oracle n).calls.all
      (fun c => !c.usedFallback || decide (60 ≤ c.timeoutSec)) = true ∧
    (oracle n = GenOutcome.connError →
      ((LocalLLM.generate llm false targ oracle n).calls.filter
        (fun c => c.usedFallback)).length = 0) := by
  rcases h : oracle n with s | _ | _ | _ <;>
    simp only [LocalLLM.generate, LocalLLM.attemptOnce, h, List.filter, List.all_cons,
      List.all_nil, Bool.not_false, Bool.true_or, Bool.and_true, List.length_nil] <;>
    try simp
  all_goals {
    by_cases hfb : llm.fallback_model = llm.model
    · simp only [hfb, ne_eq, not_true_eq_false, false_and, and_false, if_false]
      simp
    · have hcond : (false = false ∧ llm.fallback_model ≠ llm.model) := ⟨rfl, hfb⟩
      rcases h2 : oracle (n + 1) with s2 | _ | _ | _ <;>
        simp only [LocalLLM.generate, LocalLLM.attemptOnce, h, h2, hcond, if_true, ne_eq,
          not_false_eq_true, and_self, ite_true] <;>
        simp [List.filter, decide_eq_true_eq, timeoutByModel_ge_60]
  }

theorem genTrue_calls (llm : LLMInst) (t : Nat) (oracle : Nat → GenOutcome) (n : Nat) :
    (LocalLLM.generate llm true (some t) oracle n).calls =
      [⟨llm.fallback_model, t, true⟩] := by
  rcases h : oracle n with s | _ | _ | _ <;>
    simp [LocalLLM.generate, LocalLLM.attemptOnce, h]

theorem routerSecond_spec (fb : String) (ft : Nat) (hft : 60 ≤ ft)
    (oracle : Nat → GenOutcome) (m : Nat) :
    ((LocalLLM.generate ⟨fb, defaultFallbackModel⟩ true (some ft) oracle m).calls.filter
      (fun c => c.usedFallback)).length = 1 ∧
    (LocalLLM.generate ⟨fb, defaultFallbackModel⟩ true (some ft) oracle m).calls.all
      (fun c => !c.usedFallback || decide (60 ≤ c.timeoutSec)) = true := by
  rw [genTrue_calls]
  simp [List.filter, decide_eq_true_eq, hft]

/-- Claim C5 counterexample: with the default configuration and a backend that
always times out, a fast tier request issues two fallback-model attempts (the
internal retry of LocalLLM.generate plus the router-level fallback), refuting
that at most one fallback attempt is made. -/
theorem claim_C5_counterexample :
    fallbackAttempts (LLMRouter.generate LLMRouter.defaultRouterState "kurz" [] (qc 9 10)
      (fun _ => GenOutcome.timeout) 0) = 2 ∧
    (LLMRouter.generate LLMRouter.defaultRouterState "kurz" [] (qc 9 10)
      (fun _ => GenOutcome.timeout) 0).calls =
      [⟨"qwen2.5:3b", 10, false⟩, ⟨"llama3.2:1b", 60, true⟩, ⟨"llama3.2:1b", 60, true⟩] := by
  constructor <;> decide

/-- Claim C5 as amended: at most two fallback-model attempts are made per
request (one internal retry of the LLM client on timeout or generic error,
then at most one router-level fallback attempt); every fallback attempt uses a
timeout of at least 60 seconds (the router-level one uses
max(60, int(0.7 times the configured timeout))); after a primary connection
error the internal retry is skipped, so at most one fallback attempt is made. -/
theorem claim_C5_amended :
    (∀ (st : LLMRouter.RouterState) (q : String) (chunks : List Chunk) (rsq : ℚ)
      (oracle : Nat → GenOutcome) (n : Nat),
      fallbackAttempts (LLMRouter.generate st q chunks rsq oracle n) ≤ 2 ∧
      (LLMRouter.generate st q chunks rsq oracle n).calls.all
        (fun c => !c.usedFallback || decide (60 ≤ c.timeoutSec)) = true ∧
      (oracle n = GenOutcome.connError →
        fallbackAttempts (LLMRouter.generate st q chunks rsq oracle n) ≤ 1)) ∧
    (LLMRouter.generate LLMRouter.defaultRouterState "kurz" [] (qc 9 10)
      (fun _ => GenOutcome.connError) 0).calls =
      [⟨"qwen2.5:3b", 10, false⟩, ⟨"llama3.2:1b", 60, true⟩] := by
  refine ⟨?_, by decide⟩
  intro st q chunks rsq oracle n
  unfold LLMRouter.generate fallbackAttempts
  split
  · simp
  · rename_i llm config heq
    dsimp only
    obtain ⟨hb1, hb2, hb3⟩ := genFalse_spec llm config.timeoutSec oracle n
    split
    · exact ⟨Nat.le_trans hb1 (by norm_num), hb2,
        fun hc => Nat.le_trans (Nat.le_of_eq (hb3 hc)) (by norm_num)⟩
    · rename_i e he
      split
      · rename_i fb hfb
        by_cases hcond : fb ≠ "" ∧ fb ≠ config.model
        · rw [if_pos hcond]
          dsimp only
          have hft : 60 ≤ (match config.timeoutSec with
              | some t => max (t * 7 / 10) 60
              | none => 60) := by
            cases config.timeoutSec
            · exact Nat.le_refl 60
            · exact Nat.le_max_right _ _
          obtain ⟨hf1, hf2⟩ := routerSecond_spec fb _ hft oracle
            (LocalLLM.generate llm false config.timeoutSec oracle n).next
          refine ⟨?_, ?_, ?_⟩
          · rw [List.filter_append, List.length_append, hf1]
            omega
          · rw [List.all_append, hb2, hf2]
            rfl
          · intro hc
            rw [List.filter_append, List.length_append, hb3 hc, hf1]
        · rw [if_neg hcond]
          exact ⟨Nat.le_trans hb1 (by norm_num), hb2,
            fun hc => Nat.le_trans (Nat.le_of_eq (hb3 hc)) (by norm_num)⟩
      · exact ⟨Nat.le_trans hb1 (by norm_num), hb2,
          fun hc => Nat.le_trans (Nat.le_of_eq (hb3 hc)) (by norm_num)⟩

theorem route_default_some (q : String) (ch : List Chunk) (rsq : ℚ) :
    ∃ llm cfg2, LLMRouter.route LLMRouter.defaultRouterState q ch rsq = (some llm, cfg2) := by
  unfold LLMRouter.route
  rcases hl : LLMRouter.llmOf LLMRouter.defaultRouterState
      (LLMRouter.route_model_type q ch rsq) with _ | l
  · exfalso
    unfold LLMRouter.llmOf at hl
    split_ifs at hl <;> simp [LLMRouter.defaultRouterState] at hl
  · refine ⟨l, LLMRouter.cfgOf LLMRouter.defaultRouterState
      (LLMRouter.route_model_type q ch rsq), ?_⟩
    simp [hl]

theorem routerGen_ok_default (q : String) (ch : List Chunk) (rsq : ℚ) (s : String) (n : Nat) :
    (LLMRouter.generate LLMRouter.defaultRouterState q ch rsq
      (fun _ => GenOutcome.ok s) n).res = .ok (pyStrip s) ∧
    (LLMRouter.generate LLMRouter.defaultRouterState q ch rsq
      (fun _ => GenOutcome.ok s) n).next = n + 1 := by
  obtain ⟨llm, cfg2, hroute⟩ := route_default_some q ch rsq
  unfold LLMRouter.generate
  rw [hroute]
  exact ⟨rfl, rfl⟩

/-- Claim C2 counterexample: a routed answer that is a proper substring of the
top context chunk is returned unchanged, not discarded; the routed path checks
exact equality only. -/
theorem claim_C2_counterexample :
    (RAGEngine.generate_answer defaultEngineCfg "xquery"
      [⟨"id1", "T1", "Planovo ist ein Werkzeug. Es verwaltet Projekte und Termine."⟩]
      (qc 9 10) true none (fun _ => GenOutcome.ok "Planovo ist ein Werkzeug.") 0).res =
      .ok "Planovo ist ein Werkzeug." ∧
    pyIn "Planovo ist ein Werkzeug.".data
      "Planovo ist ein Werkzeug. Es verwaltet Projekte und Termine.".data = true ∧
    "Planovo ist ein Werkzeug." ≠
      "Planovo ist ein Werkzeug. Es verwaltet Projekte und Termine." :=
  ⟨by decide, by decide, by decide⟩

/-- Claim C2 as amended: after a successful routed generation the orchestrator
discards the answer only when it is exactly identical to the top chunk after
stripping; a merely substring-contained or overlapping answer is returned
unchanged; on discard the extraction tiers are re-attempted and when both fail
the original model answer is returned, not the chunk sentences. -/
theorem claim_C2_amended :
    (∀ (s q : String) (c : Chunk) (restCh : List Chunk) (rsq : ℚ) (n : Nat),
      simpleFactKeywords.any (fun kw => pyIn kw.data (pyLowerL q.data)) = false →
      stripL (pyStrip s).data ≠ stripL c.text.data →
      (RAGEngine.generate_answer defaultEngineCfg q (c :: restCh) rsq true none
        (fun _ => GenOutcome.ok s) n).res = .ok (pyStrip s)) ∧
    (∀ (s q e : String) (c : Chunk) (restCh : List Chunk) (rsq : ℚ) (n : Nat),
      simpleFactKeywords.any (fun kw => pyIn kw.data (pyLowerL q.data)) = false →
      stripL (pyStrip s).data = stripL c.text.data →
      reExtract q c.text none = some e →
      (RAGEngine.generate_answer defaultEngineCfg q (c :: restCh) rsq true none
        (fun _ => GenOutcome.ok s) n).res = .ok e) ∧
    (∀ (s q : String) (c : Chunk) (restCh : List Chunk) (rsq : ℚ) (n : Nat),
      simpleFactKeywords.any (fun kw => pyIn kw.data (pyLowerL q.data)) = false →
      stripL (pyStrip s).data = stripL c.text.data →
      reExtract q c.text none = none →
      (RAGEngine.generate_answer defaultEngineCfg q (c :: restCh) rsq true none
        (fun _ => GenOutcome.ok s) n).res = .ok (pyStrip s)) := by
  have hbase : ∀ (s q : String) (c : Chunk) (restCh : List Chunk) (rsq : ℚ) (n : Nat),
      simpleFactKeywords.any (fun kw => pyIn kw.data (pyLowerL q.data)) = false →
      (RAGEngine.generate_answer defaultEngineCfg q (c :: restCh) rsq true none
        (fun _ => GenOutcome.ok s) n) =
        (if stripL (pyStrip s).data = stripL c.text.data then
          match reExtract q c.text none with
          | some e => ⟨.ok e, n + 1⟩
          | none => ⟨.ok (pyStrip s), n + 1⟩
        else ⟨.ok (pyStrip s), n + 1⟩) := by
    intro s q c restCh rsq n h1
    obtain ⟨hres, hnext⟩ := routerGen_ok_default q (c :: restCh) rsq s n
    rcases hgen : LLMRouter.generate LLMRouter.defaultRouterState q (c :: restCh) rsq
        (fun _ => GenOutcome.ok s) n with ⟨gres, gnext, gcalls⟩
    rw [hgen] at hres hnext
    dsimp only at hres hnext
    subst hres
    subst hnext
    simp only [RAGEngine.generate_answer, defaultEngineCfg, h1, Bool.false_eq_true,
      if_false, hgen]
    simp [RAGEngine.clean_answer]
  refine ⟨?_, ?_, ?_⟩
  · intro s q c restCh rsq n h1 h2
    rw [hbase s q c restCh rsq n h1, if_neg h2]
  · intro s q e c restCh rsq n h1 h2 h3
    rw [hbase s q c restCh rsq n h1, if_pos h2, h3]
  · intro s q c restCh rsq n h1 h2 h3
    rw [hbase s q c restCh rsq n h1, if_pos h2, h3]

/-- Witness for claim C2 as amended: concrete runs discharging the hypotheses
of all three parts. -/
theorem claim_C2_amended_witness :
    (simpleFactKeywords.any (fun kw =>
      pyIn kw.data (pyLowerL "xquery".data)) = false ∧
     stripL (pyStrip "Anderer Text.").data ≠
      stripL "Planovo ist ein Werkzeug. Es verwaltet Projekte und Termine.".data ∧
     (RAGEngine.generate_answer defaultEngineCfg "xquery"
       [⟨"i", "T", "Planovo ist ein Werkzeug. Es verwaltet Projekte und Termine."⟩]
       (qc 1 2) true none (fun _ => GenOutcome.ok "Anderer Text.") 0).res =
       .ok (pyStrip "Anderer Text.")) ∧
    ((RAGEngine.generate_answer defaultEngineCfg "Was ist Planovo?"
       [⟨"i", "T", "Planovo ist ein Werkzeug. Es verwaltet Projekte und Termine."⟩]
       (qc 1 2) true none
       (fun _ => GenOutcome.ok "Planovo ist ein Werkzeug. Es verwaltet Projekte und Termine.") 0).res =
       .ok "Planovo ist ein Werkzeug. Es verwaltet Projekte und Termine.") ∧
    ((RAGEngine.generate_answer defaultEngineCfg "zzzz"
       [⟨"i", "T", "Planovo ist ein Werkzeug. Es verwaltet Projekte und Termine."⟩]
       (qc 1 2) true none
       (fun _ => GenOutcome.ok "Planovo ist ein Werkzeug. Es verwaltet Projekte und Termine.") 0).res =
       .ok (pyStrip "Planovo ist ein Werkzeug. Es verwaltet Projekte und Termine.")) :=
  ⟨⟨by decide, by decide,
    claim_C2_amended.1 "Anderer Text." "xquery"
      ⟨"i", "T", "Planovo ist ein Werkzeug. Es verwaltet Projekte und Termine."⟩ [] (qc 1 2) 0
      (by decide) (by decide)⟩,
   by
    have := claim_C2_amended.2.1
      "Planovo ist ein Werkzeug. Es verwaltet Projekte und Termine." "Was ist Planovo?"
      "Planovo ist ein Werkzeug. Es verwaltet Projekte und Termine."
      ⟨"i", "T", "Planovo ist ein Werkzeug. Es verwaltet Projekte und Termine."⟩ [] (qc 1 2) 0
      (by decide) (by decide) (by decide)
    exact this,
   claim_C2_amended.2.2
     "Planovo ist ein Werkzeug. Es verwaltet Projekte und Termine." "zzzz"
     ⟨"i", "T", "Planovo ist ein Werkzeug. Es verwaltet Projekte und Termine."⟩ [] (qc 1 2) 0
     (by decide) (by decide) (by decide)⟩

/-- Mode of a chat outcome, when it is a response. -/
def ChatHandler.modeOf (o : ChatOutcome) : Option String :=
  match o.res with
  | .ok r => some r.mode
  | .error _ => none

/-- Answer of a chat outcome, when it is a response. -/
def ChatHandler.answerOf (o : ChatOutcome) : Option String :=
  match o.res with
  | .ok r => some r.answer
  | .error _ => none

theorem genAnswer_default_ok (q : String) (ch : List Chunk) (rsq : ℚ) (cid : Option String)
    (oracle : Nat → GenOutcome) (n : Nat) :
    ∃ a, (RAGEngine.generate_answer defaultEngineCfg q ch rsq true cid oracle n).res =
      Except.ok a := by
  rcases ch with _ | ⟨c0, rest⟩
  · exact ⟨_, rfl⟩
  · simp only [RAGEngine.generate_answer, defaultEngineCfg]
    repeat' first
      | exact ⟨_, rfl⟩
      | split

/-- Claim C8 counterexample: the no-hit response carries no sources field at
all (modelled as none), not an empty sources list. -/
theorem claim_C8_counterexample :
    (ChatHandler.process_chat_query "egal" true true [] defaultEngineCfg (some "acme") true
      (fun _ => GenOutcome.ok "x")).res =
      .ok ⟨noInfoAnswer, "fallback", some 0, none, none⟩ ∧
    (⟨noInfoAnswer, "fallback", some 0, none, none⟩ : ChatResult).sources ≠
      some ([] : List SourceEntry) :=
  ⟨by decide, by decide⟩

/-- Claim C8 as amended: a non-greeting query against an existing tenant with
no hits yields mode fallback, the non-empty no-information answer, the zero
confidence value, and no topic or sources fields (omitted rather than empty). -/
theorem claim_C8_amended :
    (∀ (query cid : String) (cfg : EngineCfg) (use_rag : Bool)
      (oracle : Nat → GenOutcome),
      is_greeting (pyStrip query) = false →
      cid.data.isEmpty = false →
      ChatHandler.process_chat_query query true true [] cfg (some cid) use_rag oracle =
        ⟨.ok ⟨noInfoAnswer, "fallback", some 0, none, none⟩, 0⟩) ∧
    noInfoAnswer ≠ "" := by
  refine ⟨?_, by decide⟩
  intro query cid cfg use_rag oracle hg hc
  unfold ChatHandler.process_chat_query
  simp [hg, hc, TopicIndex.rsq_from_hits]

/-- Witness for claim C8 as amended at a concrete query and tenant. -/
theorem claim_C8_amended_witness :
    is_greeting (pyStrip "egal") = false ∧
    "acme".data.isEmpty = false ∧
    ChatHandler.process_chat_query "egal" true true [] defaultEngineCfg (some "acme") false
      (fun _ => GenOutcome.ok "x") =
      ⟨.ok ⟨noInfoAnswer, "fallback", some 0, none, none⟩, 0⟩ :=
  ⟨by decide, by decide,
   claim_C8_amended.1 "egal" "acme" defaultEngineCfg false (fun _ => GenOutcome.ok "x")
     (by decide) (by decide)⟩

/-- Claim C6 counterexample: with useGeneration false and a hit whose text
admits a Fact-tier extraction, the orchestrator returns the extracted sentence
with mode retrieval_fast, not a 300-character truncation of the section with
mode retrieval. -/
theorem claim_C6_counterexample :
    (ChatHandler.process_chat_query "Wie hoch ist der Gesamtbetrag?" true true
      [⟨⟨"d1", "Rechnung", "Gesamtbetrag: 100,00 €. Diese Rechnung umfasst mehrere Positionen und enthält weitere Details zur Zahlung."⟩, qc 1 2⟩]
      defaultEngineCfg (some "acme") false (fun _ => GenOutcome.genError)).res =
      .ok ⟨"Der Gesamtbetrag beträgt 100,00 €", "retrieval_fast", some (qc 1 2),
        some "Rechnung", some [⟨"Rechnung", qc 1 2, "d1"⟩]⟩ ∧
    "retrieval_fast" ≠ "retrieval" :=
  ⟨by decide, by decide⟩

/-- Claim C6 as amended: with useGeneration false and hits present, a usable
extraction (truthy, different from the chunk and shorter than half of it) is
returned with mode retrieval_fast and no generation call; when the extraction
is unusable and rsq is at least 0.05, the response has mode retrieval (its
answer being a Contextual-tier extraction, the first chunk sentences, or a
200-character truncation, not a 300-character one). -/
theorem claim_C6_amended :
    (∀ (query cid : String) (cfg : EngineCfg) (h : TopicHit) (t : List TopicHit)
      (oracle : Nat → GenOutcome),
      is_greeting (pyStrip query) = false →
      cid.data.isEmpty = false →
      ChatHandler.isExtractedB (pyStrip query) h.doc.text = true →
      ChatHandler.modeOf (ChatHandler.process_chat_query query true true (h :: t) cfg
          (some cid) false oracle) = some "retrieval_fast" ∧
      ChatHandler.answerOf (ChatHandler.process_chat_query query true true (h :: t) cfg
          (some cid) false oracle) =
        some ((ChatHandler.extractedOpt (pyStrip query) h.doc.text).getD "") ∧
      (ChatHandler.process_chat_query query true true (h :: t) cfg
          (some cid) false oracle).ncalls = 0) ∧
    (∀ (query cid : String) (cfg : EngineCfg) (h : TopicHit) (t : List TopicHit)
      (oracle : Nat → GenOutcome),
      is_greeting (pyStrip query) = false →
      cid.data.isEmpty = false →
      ChatHandler.isExtractedB (pyStrip query) h.doc.text = false →
      qlt (TopicIndex.rsq_from_hits (h :: t)) (qc 1 20) = false →
      ChatHandler.modeOf (ChatHandler.process_chat_query query true true (h :: t) cfg
          (some cid) false oracle) = some "retrieval" ∧
      (ChatHandler.process_chat_query query true true (h :: t) cfg
          (some cid) false oracle).ncalls = 0) := by
  constructor
  · intro query cid cfg h t oracle hg hc he
    unfold ChatHandler.process_chat_query
    simp [hg, hc, he, ChatHandler.modeOf, ChatHandler.answerOf]
  · intro query cid cfg h t oracle hg hc he hr
    unfold ChatHandler.process_chat_query
    simp [hg, hc, he, hr, ChatHandler.modeOf]

/-- Witness for claim C6 as amended at concrete runs of both parts. -/
theorem claim_C6_amended_witness :
    (ChatHandler.isExtractedB (pyStrip "Wie hoch ist der Gesamtbetrag?")
      "Gesamtbetrag: 100,00 €. Diese Rechnung umfasst mehrere Positionen und enthält weitere Details zur Zahlung." = true ∧
     ChatHandler.modeOf (ChatHandler.process_chat_query "Wie hoch ist der Gesamtbetrag?"
       true true
       [⟨⟨"d1", "Rechnung", "Gesamtbetrag: 100,00 €. Diese Rechnung umfasst mehrere Positionen und enthält weitere Details zur Zahlung."⟩, qc 1 2⟩]
       defaultEngineCfg (some "acme") false (fun _ => GenOutcome.genError)) =
       some "retrieval_fast") ∧
    (ChatHandler.isExtractedB (pyStrip "egal") "kurz" = false ∧
     qlt (TopicIndex.rsq_from_hits [⟨⟨"d2", "K", "kurz"⟩, qc 1 2⟩]) (qc 1 20) = false ∧
     ChatHandler.modeOf (ChatHandler.process_chat_query "egal" true true
       [⟨⟨"d2", "K", "kurz"⟩, qc 1 2⟩] defaultEngineCfg (some "acme") false
       (fun _ => GenOutcome.genError)) = some "retrieval") :=
  ⟨⟨by decide,
    (claim_C6_amended.1 "Wie hoch ist der Gesamtbetrag?" "acme" defaultEngineCfg
      ⟨⟨"d1", "Rechnung", "Gesamtbetrag: 100,00 €. Diese Rechnung umfasst mehrere Positionen und enthält weitere Details zur Zahlung."⟩, qc 1 2⟩ []
      (fun _ => GenOutcome.genError) (by decide) (by decide) (by decide)).1⟩,
   ⟨by decide, by decide,
    (claim_C6_amended.2 "egal" "acme" defaultEngineCfg ⟨⟨"d2", "K", "kurz"⟩, qc 1 2⟩ []
      (fun _ => GenOutcome.genError) (by decide) (by decide) (by decide) (by decide)).1⟩⟩

/-- Claim C7 counterexample: with generation enabled and succeeding, a query
with rsq 0.04 and no successful extraction is answered by the router with mode
rag after one generation call, not by the low-relevance clarification. -/
theorem claim_C7_counterexample :
    ChatHandler.process_chat_query "xy zz" true true
      [⟨⟨"d1", "T", "Inhaltstext ohne Treffer."⟩, qc 1 25⟩]
      defaultEngineCfg (some "acme") true (fun _ => GenOutcome.ok "X") =
      ⟨.ok ⟨"X", "rag", some (qc 1 25), some "T", some [⟨"T", qc 1 25, "d1"⟩]⟩, 1⟩ ∧
    qlt (TopicIndex.rsq_from_hits [⟨⟨"d1", "T", "Inhaltstext ohne Treffer."⟩, qc 1 25⟩])
      (qc 1 20) = true ∧
    ChatHandler.extractedOpt "xy zz" "Inhaltstext ohne Treffer." = none :=
  ⟨by decide, by decide, by decide⟩

/-- Claim C7 as amended: the low-relevance clarification (mode low_relevance)
is produced only on the non-generation paths; with useGeneration false, an
unusable extraction and rsq below 0.05 it is returned without any generation
call, while with useGeneration true under the router configuration the
generation path never raises, so the router is always invoked and the mode is
rag regardless of rsq. -/
theorem claim_C7_amended :
    (∀ (query cid : String) (cfg : EngineCfg) (h : TopicHit) (t : List TopicHit)
      (oracle : Nat → GenOutcome),
      is_greeting (pyStrip query) = false →
      cid.data.isEmpty = false →
      ChatHandler.isExtractedB (pyStrip query) h.doc.text = false →
      qlt (TopicIndex.rsq_from_hits (h :: t)) (qc 1 20) = true →
      ChatHandler.modeOf (ChatHandler.process_chat_query query true true (h :: t) cfg
          (some cid) false oracle) = some "low_relevance" ∧
      ChatHandler.answerOf (ChatHandler.process_chat_query query true true (h :: t) cfg
          (some cid) false oracle) = some lowRelevanceAnswer ∧
      (ChatHandler.process_chat_query query true true (h :: t) cfg
          (some cid) false oracle).ncalls = 0) ∧
    (∀ (query cid : String) (h : TopicHit) (t : List TopicHit)
      (oracle : Nat → GenOutcome),
      is_greeting (pyStrip query) = false →
      cid.data.isEmpty = false →
      ChatHandler.modeOf (ChatHandler.process_chat_query query true true (h :: t)
          defaultEngineCfg (some cid) true oracle) = some "rag") := by
  constructor
  · intro query cid cfg h t oracle hg hc he hr
    unfold ChatHandler.process_chat_query
    simp [hg, hc, he, hr, ChatHandler.modeOf, ChatHandler.answerOf]
  · intro query cid h t oracle hg hc
    obtain ⟨a, ha⟩ := genAnswer_default_ok (pyStrip query) ((h :: t).map TopicHit.doc)
      (TopicIndex.rsq_from_hits (h :: t)) (some cid) oracle 0
    simp only [List.map_cons] at ha
    unfold ChatHandler.process_chat_query
    simp [hg, hc, ChatHandler.modeOf, ha]

/-- Witness for claim C7 as amended at concrete runs of both parts. -/
theorem claim_C7_amended_witness :
    (ChatHandler.isExtractedB (pyStrip "egal") "kurz" = false ∧
     qlt (TopicIndex.rsq_from_hits [⟨⟨"d2", "K", "kurz"⟩, qc 1 50⟩]) (qc 1 20) = true ∧
     ChatHandler.modeOf (ChatHandler.process_chat_query "egal" true true
       [⟨⟨"d2", "K", "kurz"⟩, qc 1 50⟩] defaultEngineCfg (some "acme") false
       (fun _ => GenOutcome.genError)) = some "low_relevance") ∧
    ChatHandler.modeOf (ChatHandler.process_chat_query "egal" true true
      [⟨⟨"d2", "K", "kurz"⟩, qc 1 50⟩] defaultEngineCfg (some "acme") true
      (fun _ => GenOutcome.timeout)) = some "rag" :=
  ⟨⟨by decide, by decide,
    (claim_C7_amended.1 "egal" "acme" defaultEngineCfg ⟨⟨"d2", "K", "kurz"⟩, qc 1 50⟩ []
      (fun _ => GenOutcome.genError) (by decide) (by decide) (by decide) (by decide)).1⟩,
   claim_C7_amended.2 "egal" "acme" ⟨⟨"d2", "K", "kurz"⟩, qc 1 50⟩ []
     (fun _ => GenOutcome.timeout) (by decide) (by decide)⟩

/-- Witness for claim C5 as amended: at a concrete connection-error run the
hypothesis holds and at most one fallback attempt is made. -/
theorem claim_C5_amended_witness :
    (fun _ : Nat => GenOutcome.connError) 0 = GenOutcome.connError ∧
    fallbackAttempts (LLMRouter.generate LLMRouter.defaultRouterState "hallo welt" []
      (qc 1 2) (fun _ => GenOutcome.connError) 0) ≤ 1 :=
  ⟨rfl, (claim_C5_amended.1 LLMRouter.defaultRouterState "hallo welt" [] (qc 1 2)
    (fun _ => GenOutcome.connError) 0).2.2 rfl⟩

end RAG
